import Mathlib

/-!
# Linduino precision-conversion layer: LTC2607 and LTC2668 code/volts codecs, DC934A calibration

A shallow embedding of `LTSketchbook/libraries/LTC2607/ltc2607_comm.{h,cpp}`,
`LTSketchbook/libraries/LTC2668/ltc2668_comm.{h,cpp}`,
`LTSketchbook/libraries/LTC2422/ltc2422_comm.cpp`,
`LTSketchbook/libraries/DC934A/dc934a_comm.cpp` and
`LTSketchbook/libraries/UserInterface/SortedDictionary.hpp`.

Conventions of the embedding.

* A C `float` is an exact rational (`ℚ`): every statement below is a statement in exact
  arithmetic, rounding is not modelled.  `floor` returns a `float` holding an integer; it is
  an `Int` here.
* `uint8_t`, `uint16_t` values are `Nat`, `int8_t` values are `Int`; a conversion to an
  unsigned type of width `w` is written `% 2^w`.
* An out-parameter `T* p` is a pair of an argument (the content of `*p` before the call) and a
  component of the result (the content after the call); "not written" is "unchanged".
* A call returns `Option`: `none` stands for an execution without a defined value in this
  model, namely a floating-point division by zero (no exact value), an array access out of
  bounds, or a read of a local that the callee was to fill and did not.  A local that no
  statement assigns at all is a parameter of the function that reads it.
* What the board does (pins, bus transfers) is an argument of the function that uses it, and
  so is what the memory does at a store through an address that the program has made from an
  integer (`store` of `dc934a_calibration`).
* `int32_t` arithmetic wraps around at `2^31` (`to_int32`).
* A fixed-size array `T a[N]` is a function `Fin N → T`.
-/

/-! ## Floating-point helpers -/

/-- Quotient `a / b` of two `float`s in exact arithmetic; there is none for `b = 0`. -/
def fdiv (a b : ℚ) : Option ℚ :=
  if b = 0 then none else some (a / b)

/-- The conversion `uint16_t(float_code)` of a `float` that holds the integer `z`. -/
def to_uint16 (z : Int) : Nat :=
  z.toNat % 65536

/-! ## LTC2607 (`ltc2607_comm.h`) -/

def LTC2607_DAC_A : Int := 0x0
def LTC2607_DAC_B : Int := 0x1
def LTC2607_BOTH : Int := 0xF

def LTC2607_FULL_SCALE : Int := 65535

def LTC2607_ERR_OK : Int := 0
def LTC2607_ERR_NAK : Int := -1
def LTC2607_ERR_NOT_SAME_CAL : Int := -2

/-- The record `Ltc2607State` of `ltc2607_comm.h`.  (`ltc2607_comm.cpp` spells the four
calibration fields `channel_a_lsb`, `channel_a_offset`, `channel_b_lsb`, `channel_b_offset`;
the header and `dc934a_comm.cpp` spell them as below.) -/
structure Ltc2607State where
  dac_a_lsb : ℚ
  dac_b_lsb : ℚ
  dac_a_offset : ℚ
  dac_b_offset : ℚ
  same_cal : Bool
  address : Nat

/-- Source `ltc2607_volts_to_code` (`ltc2607_comm.cpp`, lines 98-132).  The argument `code` is
the content of `*code` before the call; the result is the return value and the content of
`*code` after the call. -/
def ltc2607_volts_to_code (state : Ltc2607State) (selected_dac : Int) (volts : ℚ)
    (code : Nat) : Option (Int × Nat) :=
  -- `none`: the early `return LTC2607_ERR_NOT_SAME_CAL`
  let is_channel_a : Option Bool :=
    if selected_dac = LTC2607_BOTH then
      if state.same_cal = false then none else some true
    else some (decide (selected_dac = LTC2607_DAC_A))
  match is_channel_a with
  | none => some (LTC2607_ERR_NOT_SAME_CAL, code)
  | some is_channel_a =>
    let lsb := if is_channel_a then state.dac_a_lsb else state.dac_b_lsb
    let offset := if is_channel_a then state.dac_a_offset else state.dac_b_offset
    match fdiv (volts - offset) lsb with
    | none => none
    | some q =>
      let float_code : Int := ⌊q⌋
      if float_code > LTC2607_FULL_SCALE then
        some (LTC2607_ERR_OK, LTC2607_FULL_SCALE.toNat)
      else if float_code < 0 then
        some (LTC2607_ERR_OK, 0)
      else
        some (LTC2607_ERR_OK, to_uint16 float_code)

/-- Source `ltc2607_code_to_volts` (`ltc2607_comm.cpp`, lines 134-157).  The argument `volts`
is the content of `*volts` before the call. -/
def ltc2607_code_to_volts (state : Ltc2607State) (selected_dac : Int) (code : Nat)
    (volts : ℚ) : Int × ℚ :=
  -- `none`: the early `return LTC2607_ERR_NOT_SAME_CAL`
  let is_channel_a : Option Bool :=
    if selected_dac = LTC2607_BOTH then
      if state.same_cal = false then none else some true
    else some (decide (selected_dac = LTC2607_DAC_A))
  match is_channel_a with
  | none => (LTC2607_ERR_NOT_SAME_CAL, volts)
  | some is_channel_a =>
    let lsb := if is_channel_a then state.dac_a_lsb else state.dac_b_lsb
    let offset := if is_channel_a then state.dac_a_offset else state.dac_b_offset
    (LTC2607_ERR_OK, lsb * (code : ℚ) + offset)

/-! ## Loops over a fixed-size array -/

/-- The loop `for (int i = 0; i < n; ++i) body` without `break`: `body i` transforms the
variables `s` the loop works on. -/
def for_loop {σ : Type} (n : Nat) (body : Fin n → σ → σ) (s : σ) : σ :=
  (List.finRange n).foldl (fun acc i => body i acc) s

/-- The loop `for (int i = 0; i < n; ++i) body` whose body may `break`: `body i s` is the
state after iteration `i` and whether it left the loop by `break`. -/
def for_loop_break {σ : Type} (n : Nat) (body : Fin n → σ → σ × Bool) (s : σ) : σ :=
  ((List.finRange n).foldl
    (fun (acc : σ × Bool) i => if acc.2 then acc else body i acc.1) (s, false)).1

/-! ## LTC2668 (`ltc2668_comm.h`) -/

def LTC2668_NUM_CHANNELS : Nat := 16
def LTC2668_FULL_SCALE : Int := 65535
def LTC2668_COMMAND_WORD_SIZE : Nat := 4
def LTC2668_ALL_DACS : Int := -1

def LTC2668_CMD_WRITE_N_UPDATE_N : Nat := 0x30
def LTC2668_CMD_POWER_DOWN_N : Nat := 0x40
def LTC2668_CMD_POWER_DOWN_ALL : Nat := 0x50
def LTC2668_CMD_SPAN : Nat := 0x60
def LTC2668_CMD_WRITE_ALL_UPDATE_ALL : Nat := 0xA0
def LTC2668_CMD_SPAN_ALL : Nat := 0xE0

def LTC2668_SPAN_0_TO_5V : Nat := 0x0000
def LTC2668_SPAN_0_TO_10V : Nat := 0x0001
def LTC2668_SPAN_PLUS_MINUS_5V : Nat := 0x0002
def LTC2668_SPAN_PLUS_MINUS_10V : Nat := 0x0003
def LTC2668_SPAN_PLUS_MINUS_2V5 : Nat := 0x0004

/-- Header lookup table `const float LTC2668_MIN_OUTPUT[5] = {0.0, 0.0, -5.0, -10.0, -2.5}`. -/
def LTC2668_MIN_OUTPUT : Fin 5 → ℚ := ![0, 0, -5, -10, -5/2]

/-- Header lookup table `const float LTC2668_MAX_OUTPUT[5] = {5.0, 10.0, 5.0, 10.0, 2.5}`. -/
def LTC2668_MAX_OUTPUT : Fin 5 → ℚ := ![5, 10, 5, 10, 5/2]

def LTC2668_ERR_OK : Int := 0
def LTC2668_ERR_MISMATCH : Int := -1
def LTC2668_ERR_NOT_SAME_SPAN : Int := -2
def LTC2668_ERR_BAD_SPAN : Int := -3

/-- The record `Ltc2668State` of `ltc2668_comm.h`; `soft_spans` has `LTC2668_NUM_CHANNELS = 16`
entries and `previous_data` has `LTC2668_COMMAND_WORD_SIZE = 4`. -/
structure Ltc2668State where
  soft_spans : Fin 16 → Nat
  mux_selected_dac : Int
  select_bits : Nat
  all_same_span : Nat
  global_toggle : Nat
  previous_data : Fin 4 → Nat

/-- The index `selected_dac` into `soft_spans`; there is none outside `0..15`. -/
def ltc2668_channel_index (selected_dac : Int) : Option (Fin 16) :=
  if h : 0 ≤ selected_dac ∧ selected_dac < 16 then
    some ⟨selected_dac.toNat, by omega⟩
  else none

/-- Source `ltc2668_check_and_copy_transaction` (`ltc2668_comm.cpp`, lines 79-89): the return
value and the state after the call. -/
def ltc2668_check_and_copy_transaction (state : Ltc2668State) (rx : Fin 4 → Nat) :
    Int × Ltc2668State :=
  for_loop 4
    (fun i (acc : Int × Ltc2668State) =>
      let result := if acc.2.previous_data i ≠ rx i then LTC2668_ERR_MISMATCH else acc.1
      (result, { acc.2 with previous_data := Function.update acc.2.previous_data i (rx i) }))
    (LTC2668_ERR_OK, state)

/-- The command word `data` that `ltc2668_write` builds (`ltc2668_comm.cpp`, lines 97-100);
the three arguments are a `uint8_t`, a `uint8_t` and a `uint16_t`. -/
def ltc2668_command_word (dac_command dac_address dac_code : Nat) : Fin 4 → Nat :=
  ![dac_code &&& 0xFF, (dac_code >>> 8) &&& 0xFF, (dac_command ||| dac_address) % 256, 0]

/-- Source `ltc2668_write` (`ltc2668_comm.cpp`, lines 91-111) as it is compiled, `FAKE` being
defined in the file: `rx` is a copy of `previous_data`, the word `data` is not sent. -/
def ltc2668_write (state : Ltc2668State) (dac_command dac_address dac_code : Nat) :
    Int × Ltc2668State :=
  let _data := ltc2668_command_word dac_command dac_address dac_code
  let rx : Fin 4 → Nat := for_loop 4 (fun i rx => Function.update rx i (state.previous_data i))
    (fun _ => 0)
  ltc2668_check_and_copy_transaction state rx

/-- The `switch (span)` of `ltc2668_span_to_min_max` (`ltc2668_comm.cpp`, lines 126-149): the
return value, and the pair written to `*min` and `*max` (`none` when nothing is written). -/
def ltc2668_span_switch (span : Nat) : Int × Option (ℚ × ℚ) :=
  match span with
  | 0 => (0, some (0, 5))
  | 1 => (0, some (0, 10))
  | 2 => (0, some (-5, 1/2))
  | 3 => (0, some (-10, 10))
  | 4 => (0, some (-5/2, 5/2))
  | _ => (LTC2668_ERR_BAD_SPAN, none)

/-- Source `ltc2668_span_to_min_max` (`ltc2668_comm.cpp`, lines 113-150): the return value and
the pair written to `*min` and `*max` (`none` when nothing is written). -/
def ltc2668_span_to_min_max (state : Ltc2668State) (selected_dac : Int) :
    Option (Int × Option (ℚ × ℚ)) :=
  if selected_dac = LTC2668_ALL_DACS then
    if state.all_same_span = 0 then
      some (LTC2668_ERR_NOT_SAME_SPAN, none)
    else
      some (ltc2668_span_switch (state.soft_spans 0))
  else
    match ltc2668_channel_index selected_dac with
    | none => none
    | some k => some (ltc2668_span_switch (state.soft_spans k))

/-- Source `ltc2668_volts_to_code` (`ltc2668_comm.cpp`, lines 152-174).  The argument `code` is
the content of `*code` before the call. -/
def ltc2668_volts_to_code (state : Ltc2668State) (selected_dac : Int) (dac_voltage : ℚ)
    (code : Nat) : Option (Int × Nat) :=
  match ltc2668_span_to_min_max state selected_dac with
  | none => none
  | some (result, range) =>
    if result ≠ LTC2668_ERR_OK then
      some (result, code)
    else
      match range with
      | none => none
      | some (min, max) =>
        match fdiv ((LTC2668_FULL_SCALE : ℚ) * (dac_voltage - min)) (max - min) with
        | none => none
        | some q =>
          let float_code : Int := ⌊q⌋
          if float_code < 0 then
            some (0, 0)
          else if float_code > LTC2668_FULL_SCALE then
            some (0, LTC2668_FULL_SCALE.toNat)
          else
            some (0, to_uint16 float_code)

/-- Source `ltc2668_code_to_volts` (`ltc2668_comm.cpp`, lines 176-190).  The argument `volts`
is the content of `*volts` before the call. -/
def ltc2668_code_to_volts (state : Ltc2668State) (selected_dac : Int) (dac_code : Nat)
    (volts : ℚ) : Option (Int × ℚ) :=
  match ltc2668_span_to_min_max state selected_dac with
  | none => none
  | some (result, range) =>
    if result ≠ LTC2668_ERR_OK then
      some (result, volts)
    else
      match range with
      | none => none
      | some (min, max) =>
        some (0, ((dac_code : ℚ) / (LTC2668_FULL_SCALE : ℚ)) * (max - min) + min)

/-- Source `ltc2668_set_softspan` (`ltc2668_comm.cpp`, lines 240-267): the return value and the
state after the call.  The `uint8_t` flag `all_same_span` holds `1` for `true`, `0` for
`false`; the `int8_t selected_dac` reaches `ltc2668_write` converted to `uint8_t`. -/
def ltc2668_set_softspan (state : Ltc2668State) (selected_dac : Int) (soft_span : Nat) :
    Option (Int × Ltc2668State) :=
  if selected_dac = LTC2668_ALL_DACS then
    let state := { state with all_same_span := 1 }
    let state := for_loop 16
      (fun i (st : Ltc2668State) =>
        { st with soft_spans := Function.update st.soft_spans i soft_span })
      state
    some (ltc2668_write state LTC2668_CMD_SPAN_ALL (selected_dac % 256).toNat 0)
  else
    match ltc2668_channel_index selected_dac with
    | none => none
    | some k =>
      let state := { state with soft_spans := Function.update state.soft_spans k soft_span }
      let state := for_loop_break 16
        (fun i (st : Ltc2668State) =>
          if st.soft_spans i ≠ soft_span then
            ({ st with all_same_span := 0 }, true)
          else (st, false))
        state
      some (ltc2668_write state LTC2668_CMD_SPAN (selected_dac % 256).toNat 0)

/-- Source `ltc2668_write_and_update_dac` (`ltc2668_comm.cpp`, lines 213-220). -/
def ltc2668_write_and_update_dac (state : Ltc2668State) (selected_dac : Int) (code : Nat) :
    Int × Ltc2668State :=
  ltc2668_write state
    (if selected_dac = LTC2668_ALL_DACS then LTC2668_CMD_WRITE_ALL_UPDATE_ALL
      else LTC2668_CMD_WRITE_N_UPDATE_N)
    (selected_dac % 256).toNat code

/-- Source `ltc2668_power_down_dac` (`ltc2668_comm.cpp`, lines 231-238). -/
def ltc2668_power_down_dac (state : Ltc2668State) (selected_dac : Int) :
    Int × Ltc2668State :=
  ltc2668_write state
    (if selected_dac = LTC2668_ALL_DACS then LTC2668_CMD_POWER_DOWN_ALL
      else LTC2668_CMD_POWER_DOWN_N)
    (selected_dac % 256).toNat 0

/-- Source `ltc2668_init` (`ltc2668_comm.cpp`, lines 61-77): the state after the call, given
the content of `*state` before it.  The results of the three device operations are ignored. -/
def ltc2668_init (state : Ltc2668State) : Option Ltc2668State :=
  let state := for_loop 16
    (fun i (st : Ltc2668State) =>
      { st with soft_spans := Function.update st.soft_spans i LTC2668_SPAN_0_TO_5V })
    state
  let state := { state with mux_selected_dac := 0 }
  let state := { state with select_bits := 0 }
  let state := { state with all_same_span := 1 }
  let state := { state with global_toggle := 0 }
  let state := (ltc2668_power_down_dac state LTC2668_ALL_DACS).2
  match ltc2668_set_softspan state LTC2668_ALL_DACS LTC2668_SPAN_0_TO_5V with
  | none => none
  | some (_, state) =>
    some (ltc2668_write_and_update_dac state LTC2668_ALL_DACS 0).2

/-! ## 32-bit integers -/

/-- The value of a 32-bit pattern read as `int32_t` (two's complement). -/
def to_int32 (n : Int) : Int :=
  if n % 4294967296 < 2147483648 then n % 4294967296 else n % 4294967296 - 4294967296

/-- The value of a 32-bit pattern read as `uint32_t`. -/
def to_uint32 (n : Int) : Nat :=
  (n % 4294967296).toNat

/-- The `int32_t` that `memcpy(&code, data, 4)` assembles from the four bytes of `data` on
the little-endian AVR target of the library: `data[0]` is the least significant byte. -/
def int32_of_bytes (data : Fin 4 → Nat) : Int :=
  to_int32 ((data 0 % 256 + 256 * (data 1 % 256) + 65536 * (data 2 % 256)
    + 16777216 * (data 3 % 256) : Nat) : Int)

/-! ## LTC2607 operations (`ltc2607_comm.cpp`) -/

def LTC2607_I2C_AD_LOW : Nat := 0
def LTC2607_WRITE_UPDATE_COMMAND : Nat := 0x30

/-- Header constant `LTC2607_TYPICAL_lsb`, the literal `7.6295109E-5`. -/
def LTC2607_TYPICAL_lsb : ℚ := 76295109 / 1000000000000

/-- Header constant `LTC2607_TYPICAL_OFFSET`, the literal `0`. -/
def LTC2607_TYPICAL_OFFSET : ℚ := 0

/-- Source `ltc2607_write_dac` (`ltc2607_comm.cpp`, lines 88-96) as it is compiled, `FAKE`
being defined in the file: nothing is sent and the result is `LTC2607_ERR_OK`. -/
def ltc2607_write_dac (_state : Ltc2607State) (_command _address _code : Nat) : Int :=
  LTC2607_ERR_OK

/-- Source `ltc2607_write_and_update_dac` (`ltc2607_comm.cpp`, lines 178-182); the call of
`quikeval_I2C_connect` acts on the board only. -/
def ltc2607_write_and_update_dac (state : Ltc2607State) (selected_dac : Int) (code : Nat) :
    Int :=
  ltc2607_write_dac state LTC2607_WRITE_UPDATE_COMMAND (selected_dac % 256).toNat code

/-- Source `ltc2607_set_i2c_address` (`ltc2607_comm.cpp`, lines 165-170). -/
def ltc2607_set_i2c_address (state : Ltc2607State) (ad2 ad1 ad0 : Nat) :
    Int × Ltc2607State :=
  let i := (ad2 * 9 + ad1 * 3 + ad0) % 256
  (LTC2607_ERR_OK, { state with address := (((i / 4 + 1) <<< 4) ||| (i % 4)) % 256 })

/-- Source `ltc2607_clear_calibration` (`ltc2607_comm.cpp`, lines 196-207). -/
def ltc2607_clear_calibration (state : Ltc2607State) : Int × Ltc2607State :=
  let state := { state with dac_a_lsb := LTC2607_TYPICAL_lsb }
  let state := { state with dac_a_offset := LTC2607_TYPICAL_OFFSET }
  let state := { state with dac_b_lsb := LTC2607_TYPICAL_lsb }
  let state := { state with dac_b_offset := LTC2607_TYPICAL_OFFSET }
  let state := { state with same_cal := true }
  (LTC2607_ERR_OK, state)

/-- Source `ltc2607_init` (`ltc2607_comm.cpp`, lines 159-163): the state after the call. -/
def ltc2607_init (state : Ltc2607State) : Ltc2607State :=
  let state := (ltc2607_set_i2c_address state LTC2607_I2C_AD_LOW LTC2607_I2C_AD_LOW
    LTC2607_I2C_AD_LOW).2
  (ltc2607_clear_calibration state).2

/-! ## LTC2422 (`ltc2422_comm.cpp`) -/

/-- The record `Ltc2422State`.  The header that declares it is not among the sources; the
record is taken with the one field that the sources read and write, `lsb`. -/
structure Ltc2422State where
  lsb : ℚ

/-- What the board presents to one call of `ltc2422_adc_read`: `miso n` is the value that
`input(MISO)` reads at the poll with `timer_count = n`, `rx_first` are the three bytes that
the first `spi_transfer_block` (length 3) stores in `data[0..2]`, and `rx_second` the four
bytes that the second one (length 4) stores in `data[0..3]`. -/
structure Ltc2422Bus where
  miso : Nat → Nat
  rx_first : Fin 3 → Nat
  rx_second : Fin 4 → Nat

/-- The loop of `ltc2422_EOC_timeout` with `remaining` iterations left. -/
def ltc2422_EOC_timeout_loop (miso : Nat → Nat) : Nat → Nat → Int
  | 0, _ => 0
  | remaining + 1, timer_count =>
    if miso timer_count = 0 then -1
    else ltc2422_EOC_timeout_loop miso remaining (timer_count + 1)

/-- Source `ltc2422_EOC_timeout` (`ltc2422_comm.cpp`, lines 76-85).  The macro `MISO_TIMEOUT`
is not among the sources and is a parameter; it is taken within the range of the `uint16_t`
counter `timer_count`, where the counter does not wrap. -/
def ltc2422_EOC_timeout (MISO_TIMEOUT : Fin 65536) (miso : Nat → Nat) : Int :=
  ltc2422_EOC_timeout_loop miso MISO_TIMEOUT 0

/-- Source `ltc2422_adc_read` (`ltc2422_comm.cpp`, lines 87-111): the return value, and the
pair written to `*code_a` and `*code_b` (`none` when nothing is written). -/
def ltc2422_adc_read (_state : Ltc2422State) (MISO_TIMEOUT : Fin 65536) (bus : Ltc2422Bus) :
    Int × Option (Int × Int) :=
  let result := ltc2422_EOC_timeout MISO_TIMEOUT bus.miso
  if result ≠ 0 then
    (result, none)
  else
    let data : Fin 4 → Nat := ![bus.rx_first 0, bus.rx_first 1, bus.rx_first 2, 0]
    let is_channel_a : Bool := decide ((data 2) &&& 0x40 = 0)
    let code : Int := int32_of_bytes data
    let data : Fin 4 → Nat := bus.rx_second
    if is_channel_a then
      (0, some (code, int32_of_bytes data))
    else
      (0, some (int32_of_bytes data, code))

/-- Source `ltc2422_code_to_volts` (`ltc2422_comm.cpp`, lines 113-117).  `adc_code` is an
`int32_t` and `adc_code - 0x00200000` is computed in 32 bits: a difference below `-2^31` wraps
around (two's complement), as it does on the target. -/
def ltc2422_code_to_volts (state : Ltc2422State) (adc_code : Int) : ℚ :=
  ((to_int32 (adc_code - 0x00200000) : Int) : ℚ) * state.lsb

/-! ## DC934A (`dc934a_comm.cpp`) -/

def DC934A_CAL_LOW_DAC_CODE : Nat := 0x00FF
def DC934A_CAL_HIGH_DAC_CODE : Nat := 0xFF00
def DC934A_ERR_ADC_READ : Int := -9

/-- Source `cal_one_channel` (`dc934a_comm.cpp`, lines 70-82): the pair of the value written
to `*offset` and the value written to `*lsb`.  `low_code` and `high_code` are `uint32_t`:
they are converted to `int32_t` for `ltc2422_code_to_volts`, and `high_code - low_code` is
computed modulo `2^32`. -/
def cal_one_channel (ltc2422_state : Ltc2422State) (low_code high_code : Nat) :
    Option (ℚ × ℚ) :=
  let low_volts := ltc2422_code_to_volts ltc2422_state (to_int32 low_code)
  let high_volts := ltc2422_code_to_volts ltc2422_state (to_int32 high_code)
  match fdiv (high_volts - low_volts)
      ((to_uint32 ((high_code : Int) - (low_code : Int)) : Nat) : ℚ) with
  | none => none
  | some lsb =>
    let offset := low_volts - lsb * ((low_code % 4294967296 : Nat) : ℚ)
    some (offset, lsb)

/-- The value of the `float` whose four bytes hold the 32-bit pattern `bits` (IEEE 754 single
precision: sign, 8 bits of exponent, 23 bits of fraction); an infinity or a NaN has no value
in exact arithmetic. -/
def float_of_bits (bits : Nat) : Option ℚ :=
  let sign : ℚ := if bits / 2147483648 % 2 = 1 then -1 else 1
  let exponent := bits / 8388608 % 256
  let fraction := bits % 8388608
  if exponent = 255 then none
  else if exponent = 0 then some (sign * (fraction : ℚ) / 2 ^ 149)
  else some (sign * ((8388608 + fraction : Nat) : ℚ) * 2 ^ exponent / 2 ^ 150)

/-- Source `dc934a_calibration` (`dc934a_comm.cpp`, lines 84-125): the return value and the
LTC2607 state after the call.  `bus_low` and `bus_high` are what the board presents to the
first and to the second `ltc2422_adc_read`.

The locals `low_code_b` and `high_code_b` are declared without a value and handed to
`ltc2422_adc_read` by value (`low_code_b`, not `&low_code_b`) where it takes `int32_t *code_b`.
No statement assigns them: their content is a parameter, both when `cal_one_channel` reads
them and as the address through which a read that returns `0` stores the code it hands to
`*code_b`.  What that store does to the memory is not in the sources: `store a x s` is the
record `*ltc2607_state` after the 4-byte store of `x` through the address `a`, from the
record `s`; it has no value when the store has no outcome that the model follows (the
address is not writable, or the store changes something else that the call goes on to read).
A read that returns a non-zero value returns before it stores anything.

`cal_one_channel` is declared with the out-parameters in the order `offset, lsb` and is called
with `&dac_x_lsb, &dac_x_offset`: what it writes to `*offset` lands in `dac_x_lsb`, what it
writes to `*lsb` in `dac_x_offset`. -/
def dc934a_calibration (ltc2607_state : Ltc2607State) (ltc2422_state : Ltc2422State)
    (MISO_TIMEOUT : Fin 65536) (bus_low bus_high : Ltc2422Bus)
    (low_code_b high_code_b : Nat)
    (store : Nat → Int → Ltc2607State → Option Ltc2607State) :
    Option (Int × Ltc2607State) :=
  let result := ltc2607_write_and_update_dac ltc2607_state LTC2607_BOTH DC934A_CAL_LOW_DAC_CODE
  if result ≠ LTC2607_ERR_OK then
    some (result, ltc2607_state)
  else
    let read_low := ltc2422_adc_read ltc2422_state MISO_TIMEOUT bus_low
    if read_low.1 ≠ 0 then
      some (DC934A_ERR_ADC_READ, ltc2607_state)
    else
      match read_low.2 with
      | none => none
      | some (code_a_low, code_b_low) =>
        let low_code_a := to_uint32 code_a_low
        match store low_code_b code_b_low ltc2607_state with
        | none => none
        | some ltc2607_state =>
          let result :=
            ltc2607_write_and_update_dac ltc2607_state LTC2607_BOTH DC934A_CAL_HIGH_DAC_CODE
          if result ≠ LTC2607_ERR_OK then
            some (result, ltc2607_state)
          else
            let read_high := ltc2422_adc_read ltc2422_state MISO_TIMEOUT bus_high
            if read_high.1 ≠ 0 then
              some (DC934A_ERR_ADC_READ, ltc2607_state)
            else
              match read_high.2 with
              | none => none
              | some (code_a_high, code_b_high) =>
                let high_code_a := to_uint32 code_a_high
                match store high_code_b code_b_high ltc2607_state with
                | none => none
                | some ltc2607_state =>
                  match cal_one_channel ltc2422_state low_code_a high_code_a with
                  | none => none
                  | some (offset_a, lsb_a) =>
                    let ltc2607_state :=
                      { ltc2607_state with dac_a_lsb := offset_a, dac_a_offset := lsb_a }
                    match cal_one_channel ltc2422_state low_code_b high_code_b with
                    | none => none
                    | some (offset_b, lsb_b) =>
                      let ltc2607_state :=
                        { ltc2607_state with dac_b_lsb := offset_b, dac_b_offset := lsb_b }
                      some (LTC2607_ERR_OK, { ltc2607_state with same_cal := false })

/-- A memory in which the record `*ltc2607_state` lies at the address `ltc2607_address` with
the layout of `ltc2607_comm.h` (the four `float`s `dac_a_lsb`, `dac_b_lsb`, `dac_a_offset`,
`dac_b_offset` of 4 bytes each at the offsets 0, 4, 8, 12, then `same_cal` and `address`: 18
bytes), and in which the bytes outside the record can be written and hold nothing that
`dc934a_calibration` reads: the record after the 4-byte store of `value` at the address
`pointer`.  A store on a `float` field leaves the `float` with the bits of `value`; a store
that covers a field in part, or `same_cal` or `address`, has no value here. -/
def dc934a_store_at (ltc2607_address : Nat) (pointer : Nat) (value : Int)
    (state : Ltc2607State) : Option Ltc2607State :=
  if pointer = ltc2607_address then
    (float_of_bits (to_uint32 value)).map fun q => { state with dac_a_lsb := q }
  else if pointer = ltc2607_address + 4 then
    (float_of_bits (to_uint32 value)).map fun q => { state with dac_b_lsb := q }
  else if pointer = ltc2607_address + 8 then
    (float_of_bits (to_uint32 value)).map fun q => { state with dac_a_offset := q }
  else if pointer = ltc2607_address + 12 then
    (float_of_bits (to_uint32 value)).map fun q => { state with dac_b_offset := q }
  else if pointer + 4 ≤ ltc2607_address ∨ ltc2607_address + 18 ≤ pointer then
    some state
  else none

/-- A board on which the ready line reads `1` at every poll and the first transfer of
`ltc2422_adc_read` delivers the bytes `b0, b1, b2`, the second one `0, 0, 0x60, 0`. -/
def dc934a_bus_never_low (b0 b1 b2 : Nat) : Ltc2422Bus :=
  { miso := fun _ => 1, rx_first := ![b0, b1, b2], rx_second := ![0, 0, 0x60, 0] }

/-- A board on which the ready line reads `0` at every poll. -/
def dc934a_bus_low : Ltc2422Bus :=
  { miso := fun _ => 0, rx_first := ![0, 0, 0], rx_second := ![0, 0, 0, 0] }

/-- The LTC2607 state that `ltc2607_init` produces from the all-zero record. -/
def ltc2607_initial_state : Ltc2607State :=
  ltc2607_init { dac_a_lsb := 0, dac_b_lsb := 0, dac_a_offset := 0, dac_b_offset := 0,
                 same_cal := false, address := 0 }

/-- The state of `ltc2607_init` with `dac_a_lsb` replaced by the `float` that has the bits
`0x00600000`. -/
def dc934a_overwritten_state : Ltc2607State :=
  { ltc2607_initial_state with dac_a_lsb := 3 / 2 ^ 128 }

/-! ## LTC2422: reference and the poll with its sample count -/

/-- Source `ltc2422_set_reference` (`ltc2422_comm.cpp`, lines 119-123): the state after the
call. -/
def ltc2422_set_reference (state : Ltc2422State) (ref_volts : ℚ) : Ltc2422State :=
  { state with lsb := ref_volts / 1048575 }

/-- The loop of `ltc2422_EOC_timeout` for any value of `MISO_TIMEOUT`, with the counter
`timer_count` as the `uint16_t` it is (it wraps at 65536) and with the number `samples` of
values read from the ready line so far; `miso n` is the `n`-th value read.  `fuel` bounds the
number of tests of the loop condition, `none` is its exhaustion.  The result is the return
value and the number of samples taken. -/
def ltc2422_EOC_timeout_run (MISO_TIMEOUT : Nat) (miso : Nat → Nat) :
    Nat → Nat → Nat → Option (Int × Nat)
  | 0, _, _ => none
  | fuel + 1, timer_count, samples =>
    if timer_count < MISO_TIMEOUT then
      if miso samples = 0 then some (-1, samples + 1)
      else ltc2422_EOC_timeout_run MISO_TIMEOUT miso fuel ((timer_count + 1) % 65536)
        (samples + 1)
    else some (0, samples)

/-! ## LTC2668: the command words of the operations (`ltc2668_comm.cpp`) -/

def LTC2668_CMD_WRITE_N : Nat := 0x00
def LTC2668_CMD_UPDATE_N : Nat := 0x10
def LTC2668_CMD_WRITE_ALL : Nat := 0x80
def LTC2668_CMD_UPDATE_ALL : Nat := 0x90
def LTC2668_CMD_NO_OPERATION : Nat := 0xF0

/-- Source `ltc2668_write_dac_input_register` (`ltc2668_comm.cpp`, lines 201-211). -/
def ltc2668_write_dac_input_register (state : Ltc2668State) (selected_dac : Int)
    (code : Nat) : Int × Ltc2668State :=
  ltc2668_write state
    (if selected_dac = LTC2668_ALL_DACS then LTC2668_CMD_WRITE_ALL else LTC2668_CMD_WRITE_N)
    (selected_dac % 256).toNat code

/-- Source `ltc2668_update_power_up_dac` (`ltc2668_comm.cpp`, lines 222-229). -/
def ltc2668_update_power_up_dac (state : Ltc2668State) (selected_dac : Int) :
    Int × Ltc2668State :=
  ltc2668_write state
    (if selected_dac = LTC2668_ALL_DACS then LTC2668_CMD_UPDATE_ALL else LTC2668_CMD_UPDATE_N)
    (selected_dac % 256).toNat 0

/-- The word `data` that `ltc2668_write` builds for the call made by
`ltc2668_write_dac_input_register(state, selected_dac, code)` (lines 206-210). -/
def ltc2668_write_dac_input_register_data (selected_dac : Int) (code : Nat) : Fin 4 → Nat :=
  ltc2668_command_word
    (if selected_dac = LTC2668_ALL_DACS then LTC2668_CMD_WRITE_ALL else LTC2668_CMD_WRITE_N)
    (selected_dac % 256).toNat code

/-- The word `data` that `ltc2668_write` builds for the call made by
`ltc2668_write_and_update_dac(state, selected_dac, code)` (lines 215-219). -/
def ltc2668_write_and_update_dac_data (selected_dac : Int) (code : Nat) : Fin 4 → Nat :=
  ltc2668_command_word
    (if selected_dac = LTC2668_ALL_DACS then LTC2668_CMD_WRITE_ALL_UPDATE_ALL
      else LTC2668_CMD_WRITE_N_UPDATE_N)
    (selected_dac % 256).toNat code

/-- The word `data` that `ltc2668_write` builds for the call made by
`ltc2668_update_power_up_dac(state, selected_dac)` (lines 224-228). -/
def ltc2668_update_power_up_dac_data (selected_dac : Int) : Fin 4 → Nat :=
  ltc2668_command_word
    (if selected_dac = LTC2668_ALL_DACS then LTC2668_CMD_UPDATE_ALL else LTC2668_CMD_UPDATE_N)
    (selected_dac % 256).toNat 0

/-- The word `data` that `ltc2668_write` builds for the call made by
`ltc2668_power_down_dac(state, selected_dac)` (lines 233-237). -/
def ltc2668_power_down_dac_data (selected_dac : Int) : Fin 4 → Nat :=
  ltc2668_command_word
    (if selected_dac = LTC2668_ALL_DACS then LTC2668_CMD_POWER_DOWN_ALL
      else LTC2668_CMD_POWER_DOWN_N)
    (selected_dac % 256).toNat 0

/-- The word `data` that `ltc2668_write` builds for the call made by
`ltc2668_set_softspan(state, selected_dac, soft_span)` (lines 262-266): the source passes the
literal `0` as `dac_code`, `soft_span` is not an argument of the call. -/
def ltc2668_set_softspan_data (selected_dac : Int) (_soft_span : Nat) : Fin 4 → Nat :=
  ltc2668_command_word
    (if selected_dac = LTC2668_ALL_DACS then LTC2668_CMD_SPAN_ALL else LTC2668_CMD_SPAN)
    (selected_dac % 256).toNat 0

/-! ## SortedDictionary (`SortedDictionary.hpp`) -/

/-- The data members of the class `SortedDictionary<K, KComp, V, Capacity>`.  The two arrays
hold whatever their storage held when the object was made: a dictionary is empty when
`num_entries = 0`, whatever `keys` and `values` are. -/
structure SortedDictionary (K V : Type) (Capacity : Nat) where
  keys : Fin Capacity → K
  values : Fin Capacity → V
  num_entries : Int

/-- The read `a[i]` of an array of `n` cells with an `int` index; there is no value outside
`0..n-1`. -/
def array_read {α : Type} {n : Nat} (a : Fin n → α) (i : Int) : Option α :=
  if h : 0 ≤ i ∧ i < n then some (a ⟨i.toNat, by omega⟩) else none

/-- The write `a[i] = x` into an array of `n` cells with an `int` index. -/
def array_write {α : Type} {n : Nat} (a : Fin n → α) (i : Int) (x : α) :
    Option (Fin n → α) :=
  if h : 0 ≤ i ∧ i < n then some (Function.update a ⟨i.toNat, by omega⟩ x) else none

namespace SortedDictionary

variable {K V : Type} {Capacity : Nat}

/-- The `while (lo <= hi)` loop of `search` (lines 62-76) and the returns after it (lines
77-81); `compare` is `KComp::compare`.  `fuel` bounds the number of tests of `lo <= hi`. -/
def search_loop (compare : K → K → Int) (d : SortedDictionary K V Capacity) (key : K)
    (exact : Bool) : Nat → Int → Int → Option Int
  | 0, _, _ => none
  | fuel + 1, lo, hi =>
    if lo ≤ hi then
      let mid := Int.tdiv (lo + hi) 2
      match array_read d.keys mid with
      | none => none
      | some k =>
        let comp := compare k key
        if comp < 0 then
          search_loop compare d key exact fuel (mid + 1) hi
        else if comp > 0 then
          search_loop compare d key exact fuel lo (mid - 1)
        else if exact then some mid else some (-1)
    else if exact then some (-1) else some (hi + 1)

/-- Source `search` (lines 55-82).  The loop is given `num_entries + 1` tests of `lo <= hi`,
which is enough for it to end (lemma `search_loop_fuel`). -/
def search (compare : K → K → Int) (d : SortedDictionary K V Capacity) (key : K)
    (exact : Bool) : Option Int :=
  if d.num_entries = 0 then some 0
  else search_loop compare d key exact (d.num_entries.toNat + 1) 0 (d.num_entries - 1)

/-- The loop `for (int i = num_entries; i > index; --i)` of `array_insert` (lines 92-95) with
`count` iterations left. -/
def shift_loop : Nat → Int → SortedDictionary K V Capacity →
    Option (SortedDictionary K V Capacity)
  | 0, _, d => some d
  | count + 1, i, d =>
    match array_read d.keys (i - 1), array_read d.values (i - 1) with
    | some k, some v =>
      match array_write d.keys i k, array_write d.values i v with
      | some ks, some vs => shift_loop count (i - 1) { d with keys := ks, values := vs }
      | _, _ => none
    | _, _ => none

/-- Source `array_insert` (lines 84-101): the return value and the dictionary after the call;
`keys[index] == key` is the equality of `K`. -/
def array_insert [DecidableEq K] (d : SortedDictionary K V Capacity) (index : Int) (key : K)
    (value : V) : Option (Bool × SortedDictionary K V Capacity) :=
  if d.num_entries = Capacity then
    some (false, d)
  else
    match array_read d.keys index with
    | none => none
    | some k =>
      if k = key then
        some (false, d)
      else
        match shift_loop (d.num_entries - index).toNat d.num_entries d with
        | none => none
        | some d =>
          match array_write d.keys index key, array_write d.values index value with
          | some ks, some vs =>
            some (true, { keys := ks, values := vs, num_entries := d.num_entries + 1 })
          | _, _ => none

/-- Source `insert` (lines 106-113). -/
def insert [DecidableEq K] (compare : K → K → Int) (d : SortedDictionary K V Capacity)
    (key : K) (value : V) : Option (Bool × SortedDictionary K V Capacity) :=
  match search compare d key false with
  | none => none
  | some index => array_insert d index key value

/-- Source `get_value` (lines 117-128): the return value and the content of `value` after the
call, given its content before. -/
def get_value (compare : K → K → Int) (d : SortedDictionary K V Capacity) (key : K)
    (value : V) : Option (Bool × V) :=
  match search compare d key true with
  | none => none
  | some index =>
    if index < 0 ∨ index ≥ d.num_entries then
      some (false, value)
    else
      match array_read d.values index with
      | none => none
      | some v => some (true, v)

end SortedDictionary

/-- The comparison of `int` keys by their difference. -/
def int_compare (a b : Int) : Int := a - b

/-- An empty dictionary of capacity 4 with `int` keys and values whose storage is zeroed. -/
def dict_zeroed : SortedDictionary Int Int 4 :=
  { keys := fun _ => 0, values := fun _ => 0, num_entries := 0 }

/-! ## LTC2668: the remaining operations (`ltc2668_comm.cpp`) -/

def LTC2668_CMD_CONFIG : Nat := 0x70
def LTC2668_CMD_MUX : Nat := 0xB0
def LTC2668_CMD_TOGGLE_SEL : Nat := 0xC0
def LTC2668_CMD_GLOBAL_TOGGLE : Nat := 0xD0
def LTC2668_REF_ENABLE : Nat := 0x00
def LTC2668_REF_DISABLE : Nat := 0x01
def LTC2668_MUX_DISABLE : Nat := 0x0000
def LTC2668_MUX_ENABLE : Nat := 0x0010

/-- Source `ltc2668_set_reference_mode` (`ltc2668_comm.cpp`, lines 192-199). -/
def ltc2668_set_reference_mode (state : Ltc2668State) (is_internal : Nat) :
    Int × Ltc2668State :=
  ltc2668_write state LTC2668_CMD_CONFIG 0
    (if is_internal ≠ 0 then LTC2668_REF_ENABLE else LTC2668_REF_DISABLE)

/-- Source `ltc2668_toggle_select` (`ltc2668_comm.cpp`, lines 269-277). -/
def ltc2668_toggle_select (state : Ltc2668State) (select_bits : Nat) : Int × Ltc2668State :=
  ltc2668_write state LTC2668_CMD_TOGGLE_SEL 0 select_bits

/-- Source `ltc2668_set_mux` (`ltc2668_comm.cpp`, lines 279-288).  The `uint16_t` argument
`selected_dac | flag` of `ltc2668_write` is the 16-bit pattern of `selected_dac` or-ed with
the flag. -/
def ltc2668_set_mux (state : Ltc2668State) (is_enabled : Nat) (selected_dac : Int) :
    Int × Ltc2668State :=
  let state := { state with mux_selected_dac := selected_dac }
  ltc2668_write state LTC2668_CMD_MUX 0
    ((selected_dac % 65536).toNat |||
      (if is_enabled ≠ 0 then LTC2668_MUX_ENABLE else LTC2668_MUX_DISABLE))

/-- Source `ltc2668_set_global_toggle` (`ltc2668_comm.cpp`, lines 290-298). -/
def ltc2668_set_global_toggle (state : Ltc2668State) (is_high : Nat) : Int × Ltc2668State :=
  let state := { state with global_toggle := is_high }
  ltc2668_write state LTC2668_CMD_GLOBAL_TOGGLE 0 (if is_high ≠ 0 then 1 else 0)

/-- A call of a public operation of `ltc2668_comm.cpp` other than `ltc2668_init`, with its
arguments.  (`ltc2668_ramp` is a loop of `ltc2668_write_and_update_dac` without a `return`;
its steps are calls of this kind.) -/
inductive Ltc2668Op where
  | set_softspan (selected_dac : Int) (soft_span : Nat)
  | write_dac_input_register (selected_dac : Int) (code : Nat)
  | write_and_update_dac (selected_dac : Int) (code : Nat)
  | update_power_up_dac (selected_dac : Int)
  | power_down_dac (selected_dac : Int)
  | set_reference_mode (is_internal : Nat)
  | toggle_select (select_bits : Nat)
  | set_mux (is_enabled : Nat) (selected_dac : Int)
  | set_global_toggle (is_high : Nat)

/-- The state after one call, its return value being dropped; `none` where the call has no
defined result (`ltc2668_set_softspan` with `selected_dac` outside `0..15` and
`LTC2668_ALL_DACS`). -/
def Ltc2668Op.apply (state : Ltc2668State) : Ltc2668Op → Option Ltc2668State
  | .set_softspan selected_dac soft_span =>
    (ltc2668_set_softspan state selected_dac soft_span).map Prod.snd
  | .write_dac_input_register selected_dac code =>
    some (ltc2668_write_dac_input_register state selected_dac code).2
  | .write_and_update_dac selected_dac code =>
    some (ltc2668_write_and_update_dac state selected_dac code).2
  | .update_power_up_dac selected_dac =>
    some (ltc2668_update_power_up_dac state selected_dac).2
  | .power_down_dac selected_dac =>
    some (ltc2668_power_down_dac state selected_dac).2
  | .set_reference_mode is_internal =>
    some (ltc2668_set_reference_mode state is_internal).2
  | .toggle_select select_bits =>
    some (ltc2668_toggle_select state select_bits).2
  | .set_mux is_enabled selected_dac =>
    some (ltc2668_set_mux state is_enabled selected_dac).2
  | .set_global_toggle is_high =>
    some (ltc2668_set_global_toggle state is_high).2

/-- The state after a sequence of calls, in order. -/
def ltc2668_run (state : Ltc2668State) : List Ltc2668Op → Option Ltc2668State
  | [] => some state
  | op :: ops =>
    match op.apply state with
    | none => none
    | some state => ltc2668_run state ops

/-- The states that a sequence of public operations reaches from `ltc2668_init`. -/
def Ltc2668Reachable (state : Ltc2668State) : Prop :=
  ∃ (st0 st1 : Ltc2668State) (ops : List Ltc2668Op),
    ltc2668_init st0 = some st1 ∧ ltc2668_run st1 ops = some state

/-! ## LTC2607: the write operations and the reachable states -/

def LTC2607_WRITE_COMMAND : Nat := 0x00
def LTC2607_UPDATE_COMMAND : Nat := 0x10
def LTC2607_POWER_DOWN_COMMAND : Nat := 0x40

/-- Source `ltc2607_write_dac_input_register` (`ltc2607_comm.cpp`, lines 172-176). -/
def ltc2607_write_dac_input_register (state : Ltc2607State) (selected_dac : Int)
    (code : Nat) : Int :=
  ltc2607_write_dac state LTC2607_WRITE_COMMAND (selected_dac % 256).toNat code

/-- Source `ltc2607_update_power_up_dac` (`ltc2607_comm.cpp`, lines 184-188). -/
def ltc2607_update_power_up_dac (state : Ltc2607State) (selected_dac : Int) : Int :=
  ltc2607_write_dac state LTC2607_UPDATE_COMMAND (selected_dac % 256).toNat 0

/-- Source `ltc2607_power_down_dac` (`ltc2607_comm.cpp`, lines 190-194). -/
def ltc2607_power_down_dac (state : Ltc2607State) (selected_dac : Int) : Int :=
  ltc2607_write_dac state LTC2607_POWER_DOWN_COMMAND (selected_dac % 256).toNat 0

/-- A call of an operation on the LTC2607 state other than `ltc2607_init`, with its
arguments and, for `dc934a_calibration`, with what the board and the memory present to it. -/
inductive Ltc2607Op where
  | clear_calibration
  | set_i2c_address (ad2 ad1 ad0 : Nat)
  | write_dac_input_register (selected_dac : Int) (code : Nat)
  | write_and_update_dac (selected_dac : Int) (code : Nat)
  | update_power_up_dac (selected_dac : Int)
  | power_down_dac (selected_dac : Int)
  | calibration (ltc2422_state : Ltc2422State) (MISO_TIMEOUT : Fin 65536)
      (bus_low bus_high : Ltc2422Bus) (low_code_b high_code_b : Nat)
      (store : Nat → Int → Ltc2607State → Option Ltc2607State)

/-- The state after one call, its return value being dropped.  The four write operations
take the state as `const`: they return a result code and leave the state. -/
def Ltc2607Op.apply (state : Ltc2607State) : Ltc2607Op → Option Ltc2607State
  | .clear_calibration => some (ltc2607_clear_calibration state).2
  | .set_i2c_address ad2 ad1 ad0 => some (ltc2607_set_i2c_address state ad2 ad1 ad0).2
  | .write_dac_input_register selected_dac code =>
    let _result := ltc2607_write_dac_input_register state selected_dac code
    some state
  | .write_and_update_dac selected_dac code =>
    let _result := ltc2607_write_and_update_dac state selected_dac code
    some state
  | .update_power_up_dac selected_dac =>
    let _result := ltc2607_update_power_up_dac state selected_dac
    some state
  | .power_down_dac selected_dac =>
    let _result := ltc2607_power_down_dac state selected_dac
    some state
  | .calibration ltc2422_state MISO_TIMEOUT bus_low bus_high low_code_b high_code_b store =>
    (dc934a_calibration state ltc2422_state MISO_TIMEOUT bus_low bus_high
      low_code_b high_code_b store).map Prod.snd

/-- The state after a sequence of calls, in order. -/
def ltc2607_run (state : Ltc2607State) : List Ltc2607Op → Option Ltc2607State
  | [] => some state
  | op :: ops =>
    match op.apply state with
    | none => none
    | some state => ltc2607_run state ops

/-- The states that a sequence of operations reaches from `ltc2607_init`. -/
def Ltc2607Reachable (state : Ltc2607State) : Prop :=
  ∃ (st0 : Ltc2607State) (ops : List Ltc2607Op),
    ltc2607_run (ltc2607_init st0) ops = some state

/-! ## ParseNum (`ParseNum.cpp`) -/

/-- The value of a 16-bit pattern read as `int16_t`. -/
def to_int16 (n : Int) : Int :=
  if n % 65536 < 32768 then n % 65536 else n % 65536 - 65536

/-- The value of an 8-bit pattern read as `int8_t`. -/
def to_int8 (n : Int) : Int :=
  if n % 256 < 128 then n % 256 else n % 256 - 256

/-- `INT_MIN` of `<limits.h>` on the AVR target of the library, whose `int` has 16 bits. -/
def INT_MIN : Int := -32768

/-- `INT_MAX` of `<limits.h>` on the AVR target of the library. -/
def INT_MAX : Int := 32767

def SCHAR_MIN : Int := -128
def SCHAR_MAX : Int := 127

/-- What the C library reports about a string `str`: `len` is `strlen(str)`, `long_value` the
value that `strtol(str, &endptr, 0)` returns and `consumed` the number `endptr - str` of
characters it has consumed. -/
structure StrtolResult where
  len : Nat
  long_value : Int
  consumed : Nat

/-- Source `parse_long` (`ParseNum.cpp`, lines 45-60): the return value and the content of
`*value` after the call, given its content before; `len` and `num_read` are `uint8_t`.  The
calls of `sinter_error` print only. -/
def parse_long (str : StrtolResult) (value : Int) (min max : Int) : Bool × Int :=
  let len := str.len % 256
  let long_value := str.long_value
  let num_read := str.consumed % 256
  if num_read = 0 ∨ num_read ≠ len then
    (false, value)
  else if long_value < min ∨ long_value > max then
    (false, value)
  else
    (true, long_value)

/-- Source `parse_i16` (`ParseNum.cpp`, lines 89-95): the return value and the content of
`*value` after the call.  `value_address` is the address held by the pointer `value`, which
is what the statement `*value = int16_t(value)` converts; `long_value` is the content of the
local before `parse_long` fills it. -/
def parse_i16 (str : StrtolResult) (value_address : Nat) (long_value : Int) : Bool × Int :=
  let r := parse_long str long_value INT_MIN INT_MAX
  (r.1, to_int16 (value_address : Int))

/-- Source `parse_i8` (`ParseNum.cpp`, lines 105-111): the return value and the content of
`*value` after the call, `*value = int8_t(long_value)`. -/
def parse_i8 (str : StrtolResult) (long_value : Int) : Bool × Int :=
  let r := parse_long str long_value SCHAR_MIN SCHAR_MAX
  (r.1, to_int8 r.2)

/-! ## The linear codec of the specification -/

/-- A state with the span `span` on every channel and the flag `flag`. -/
def ltc2668_uniform_state (span flag : Nat) : Ltc2668State :=
  { soft_spans := fun _ => span, mux_selected_dac := 0, select_bits := 0,
    all_same_span := flag, global_toggle := 0, previous_data := fun _ => 0 }

/-! ## LTC2607: theorems -/

/-- The integer held by an in-range `float` survives the conversion to `uint16_t`. -/
theorem to_uint16_of_range (z : Int) (h0 : 0 ≤ z) (h1 : z ≤ 65535) :
    ((to_uint16 z : Nat) : Int) = z := by
  unfold to_uint16
  have hz : ((z.toNat : Nat) : Int) = z := Int.toNat_of_nonneg h0
  have hlt : z.toNat < 65536 := by omega
  rw [Nat.mod_eq_of_lt hlt]
  exact hz

/-- What `ltc2607_volts_to_code` does once the channel `(lsb, offset)` is chosen and
`lsb ≠ 0`: the three-way test is the saturation of the floor into `[0, 65535]`. -/
theorem ltc2607_clamp_branches (z : Int) :
    ∃ code : Nat,
      (if z > LTC2607_FULL_SCALE then some (LTC2607_ERR_OK, LTC2607_FULL_SCALE.toNat)
        else if z < 0 then some (LTC2607_ERR_OK, 0)
        else some (LTC2607_ERR_OK, to_uint16 z)) = some (LTC2607_ERR_OK, code)
      ∧ (code : Int) = max 0 (min 65535 z) := by
  unfold LTC2607_FULL_SCALE
  by_cases h1 : z > 65535
  · refine ⟨65535, ?_, ?_⟩
    · simp [h1]
    · have : min 65535 z = 65535 := min_eq_left (le_of_lt h1)
      rw [this]; rfl
  · by_cases h2 : z < 0
    · refine ⟨0, ?_, ?_⟩
      · simp [h1, h2]
      · have hm : min 65535 z = z := min_eq_right (by omega)
        rw [hm, max_eq_left (le_of_lt h2)]; rfl
    · refine ⟨to_uint16 z, ?_, ?_⟩
      · simp [h1, h2]
      · have hm : min 65535 z = z := min_eq_right (by omega)
        rw [hm, max_eq_right (by omega)]
        exact to_uint16_of_range z (by omega) (by omega)

/-- Evaluation of `ltc2607_volts_to_code` on a single channel whose `lsb` is not zero. -/
theorem ltc2607_volts_to_code_eval (st : Ltc2607State) (sel : Int) (lsb offset : ℚ)
    (v : ℚ) (old : Nat)
    (hsel : (sel = LTC2607_DAC_A ∧ lsb = st.dac_a_lsb ∧ offset = st.dac_a_offset) ∨
            (sel = LTC2607_DAC_B ∧ lsb = st.dac_b_lsb ∧ offset = st.dac_b_offset))
    (hne : lsb ≠ 0) :
    ∃ code : Nat,
      ltc2607_volts_to_code st sel v old = some (LTC2607_ERR_OK, code) ∧
      (code : Int) = max 0 (min 65535 ⌊(v - offset) / lsb⌋) := by
  obtain ⟨code, hcode, hval⟩ := ltc2607_clamp_branches ⌊(v - offset) / lsb⌋
  refine ⟨code, ?_, hval⟩
  rcases hsel with ⟨hs, hl, ho⟩ | ⟨hs, hl, ho⟩
  · subst hs hl ho
    simpa [ltc2607_volts_to_code, LTC2607_DAC_A, LTC2607_BOTH, fdiv, hne] using hcode
  · subst hs hl ho
    simpa [ltc2607_volts_to_code, LTC2607_DAC_A, LTC2607_DAC_B, LTC2607_BOTH, fdiv, hne]
      using hcode

/-- A code that is the saturation of `z` is `0` for negative `z`. -/
theorem clamp_eq_zero_of_neg (code : Nat) (z : Int)
    (h : (code : Int) = max 0 (min 65535 z)) (hz : z < 0) : code = 0 := by
  have hm : max 0 (min 65535 z) = 0 :=
    max_eq_left (le_trans (min_le_right _ _) (le_of_lt hz))
  rw [hm] at h
  exact_mod_cast h

/-- A code that is the saturation of `z` is `65535` for `z ≥ 65535`. -/
theorem clamp_eq_full_of_ge (code : Nat) (z : Int)
    (h : (code : Int) = max 0 (min 65535 z)) (hz : 65535 ≤ z) : code = 65535 := by
  have hm : min 65535 z = 65535 := min_eq_left hz
  rw [hm] at h
  have : max (0 : Int) 65535 = 65535 := by decide
  rw [this] at h
  exact_mod_cast h

/-- A code that is the saturation of `z` is at most `65535`. -/
theorem clamp_le_full (code : Nat) (z : Int)
    (h : (code : Int) = max 0 (min 65535 z)) : code ≤ 65535 := by
  have h1 : max 0 (min 65535 z) ≤ 65535 := max_le (by decide) (min_le_left _ _)
  rw [← h] at h1
  exact_mod_cast h1

/-- C1. For a single channel (`LTC2607_DAC_A` or `LTC2607_DAC_B`) whose `lsb` is positive and
every voltage `v`, `ltc2607_volts_to_code` returns `LTC2607_ERR_OK` and writes the code
`floor((v - offset) / lsb)` saturated into `[0, 65535]` (so `0` for a negative floor and
`65535` for a floor above `65535`), with the `lsb` and `offset` of that channel. -/
theorem ltc2607_volts_to_code_clamped_floor (st : Ltc2607State) (sel : Int) (lsb offset : ℚ)
    (v : ℚ) (old : Nat)
    (hsel : (sel = LTC2607_DAC_A ∧ lsb = st.dac_a_lsb ∧ offset = st.dac_a_offset) ∨
            (sel = LTC2607_DAC_B ∧ lsb = st.dac_b_lsb ∧ offset = st.dac_b_offset))
    (hlsb : 0 < lsb) :
    ∃ code : Nat,
      ltc2607_volts_to_code st sel v old = some (LTC2607_ERR_OK, code) ∧
      (code : Int) = max 0 (min 65535 ⌊(v - offset) / lsb⌋) ∧
      (⌊(v - offset) / lsb⌋ < 0 → code = 0) ∧
      (65535 < ⌊(v - offset) / lsb⌋ → code = 65535) := by
  obtain ⟨code, hcode, hval⟩ :=
    ltc2607_volts_to_code_eval st sel lsb offset v old hsel (ne_of_gt hlsb)
  exact ⟨code, hcode, hval, clamp_eq_zero_of_neg code _ hval,
    fun hbig => clamp_eq_full_of_ge code _ hval (le_of_lt hbig)⟩

/-- Witness of C1: channel B with `lsb = 1/4`, `offset = 0` at `5/2` volts. -/
theorem ltc2607_volts_to_code_clamped_floor_witness :
    ∃ code : Nat,
      ltc2607_volts_to_code ⟨1/2, 1/4, 1, 0, false, 0⟩ 1 (5/2) 7 = some (LTC2607_ERR_OK, code) ∧
      (code : Int) = max 0 (min 65535 ⌊((5/2 : ℚ) - 0) / (1/4)⌋) ∧
      (⌊((5/2 : ℚ) - 0) / (1/4)⌋ < 0 → code = 0) ∧
      (65535 < ⌊((5/2 : ℚ) - 0) / (1/4)⌋ → code = 65535) :=
  ltc2607_volts_to_code_clamped_floor ⟨1/2, 1/4, 1, 0, false, 0⟩ 1 (1/4) 0 (5/2) 7
    (Or.inr ⟨rfl, rfl, rfl⟩) (by norm_num)

/-- C2. For every state, every single channel and every code, `ltc2607_code_to_volts` returns
`LTC2607_ERR_OK` and writes `code * lsb + offset`, with the calibration pair of the selected
channel: channel A's for `LTC2607_DAC_A`, channel B's for `LTC2607_DAC_B`. -/
theorem ltc2607_code_to_volts_linear (st : Ltc2607State) (code : Nat) (volts : ℚ) :
    ltc2607_code_to_volts st LTC2607_DAC_A code volts
        = (LTC2607_ERR_OK, (code : ℚ) * st.dac_a_lsb + st.dac_a_offset) ∧
    ltc2607_code_to_volts st LTC2607_DAC_B code volts
        = (LTC2607_ERR_OK, (code : ℚ) * st.dac_b_lsb + st.dac_b_offset) := by
  constructor
  · simp [ltc2607_code_to_volts, LTC2607_DAC_A, LTC2607_BOTH, mul_comm]
  · simp [ltc2607_code_to_volts, LTC2607_DAC_A, LTC2607_DAC_B, LTC2607_BOTH, mul_comm]

/-- C3. Round trip on the LTC2607 codec: for a code in `[0, 65535]`, a single channel and a
calibration with `lsb > 0`, the voltage written by `ltc2607_code_to_volts`, given back to
`ltc2607_volts_to_code` for the same channel, yields the original code. -/
theorem ltc2607_round_trip (st : Ltc2607State) (sel : Int) (code : Nat) (volts : ℚ) (old : Nat)
    (hsel : (sel = LTC2607_DAC_A ∧ 0 < st.dac_a_lsb) ∨ (sel = LTC2607_DAC_B ∧ 0 < st.dac_b_lsb))
    (hcode : code ≤ 65535) :
    ltc2607_volts_to_code st sel (ltc2607_code_to_volts st sel code volts).2 old
      = some (LTC2607_ERR_OK, code) := by
  have key : ∀ lsb offset : ℚ, 0 < lsb →
      ⌊(lsb * (code : ℚ) + offset - offset) / lsb⌋ = (code : Int) := by
    intro lsb offset hl
    have hq : (lsb * (code : ℚ) + offset - offset) / lsb = ((code : Int) : ℚ) := by
      field_simp
    rw [hq, Int.floor_intCast]
  have hmax : max (0 : Int) (min 65535 (code : Int)) = (code : Int) := by
    rw [min_eq_right (by exact_mod_cast hcode), max_eq_right (by exact_mod_cast Nat.zero_le code)]
  rcases hsel with ⟨hs, hl⟩ | ⟨hs, hl⟩
  · have hv : (ltc2607_code_to_volts st sel code volts).2
        = st.dac_a_lsb * (code : ℚ) + st.dac_a_offset := by
      subst hs; simp [ltc2607_code_to_volts, LTC2607_DAC_A, LTC2607_BOTH]
    obtain ⟨c, hc, hval⟩ := ltc2607_volts_to_code_eval st sel st.dac_a_lsb
      st.dac_a_offset (ltc2607_code_to_volts st sel code volts).2 old
      (Or.inl ⟨hs, rfl, rfl⟩) (ne_of_gt hl)
    rw [hv, key _ _ hl, hmax] at hval
    have : c = code := by exact_mod_cast hval
    rw [hc, this]
  · have hv : (ltc2607_code_to_volts st sel code volts).2
        = st.dac_b_lsb * (code : ℚ) + st.dac_b_offset := by
      subst hs; simp [ltc2607_code_to_volts, LTC2607_DAC_A, LTC2607_DAC_B, LTC2607_BOTH]
    obtain ⟨c, hc, hval⟩ := ltc2607_volts_to_code_eval st sel st.dac_b_lsb
      st.dac_b_offset (ltc2607_code_to_volts st sel code volts).2 old
      (Or.inr ⟨hs, rfl, rfl⟩) (ne_of_gt hl)
    rw [hv, key _ _ hl, hmax] at hval
    have : c = code := by exact_mod_cast hval
    rw [hc, this]

/-- Witness of C3: code `0xFF00` on channel A with the calibration `lsb = 1/13107`,
`offset = 1/100`. -/
theorem ltc2607_round_trip_witness :
    ltc2607_volts_to_code ⟨1/13107, 1/4, 1/100, 0, false, 0⟩ 0
        (ltc2607_code_to_volts ⟨1/13107, 1/4, 1/100, 0, false, 0⟩ 0 0xFF00 0).2 3
      = some (LTC2607_ERR_OK, 0xFF00) :=
  ltc2607_round_trip ⟨1/13107, 1/4, 1/100, 0, false, 0⟩ 0 0xFF00 0 3
    (Or.inl ⟨rfl, by norm_num⟩) (by norm_num)

/-- C8. On `LTC2607_BOTH`: when `same_cal` is false, `ltc2607_code_to_volts` and
`ltc2607_volts_to_code` return `LTC2607_ERR_NOT_SAME_CAL` and leave their output as it was;
when `same_cal` is true, `ltc2607_code_to_volts` returns `LTC2607_ERR_OK` and so does
`ltc2607_volts_to_code` (its quotient by channel A's `lsb` being defined). -/
theorem ltc2607_both_needs_same_cal (st : Ltc2607State) (code : Nat) (volts v : ℚ) (old : Nat) :
    (st.same_cal = false →
      ltc2607_code_to_volts st LTC2607_BOTH code volts = (LTC2607_ERR_NOT_SAME_CAL, volts) ∧
      ltc2607_volts_to_code st LTC2607_BOTH v old = some (LTC2607_ERR_NOT_SAME_CAL, old)) ∧
    (st.same_cal = true →
      ltc2607_code_to_volts st LTC2607_BOTH code volts
        = (LTC2607_ERR_OK, st.dac_a_lsb * (code : ℚ) + st.dac_a_offset) ∧
      (st.dac_a_lsb ≠ 0 →
        ∃ c : Nat, ltc2607_volts_to_code st LTC2607_BOTH v old = some (LTC2607_ERR_OK, c))) ∧
    LTC2607_ERR_NOT_SAME_CAL ≠ LTC2607_ERR_OK := by
  refine ⟨?_, ?_, by decide⟩
  · intro h
    simp [ltc2607_code_to_volts, ltc2607_volts_to_code, h]
  · intro h
    refine ⟨by simp [ltc2607_code_to_volts, h], ?_⟩
    intro hne
    obtain ⟨c, hc, -⟩ := ltc2607_clamp_branches ⌊(v - st.dac_a_offset) / st.dac_a_lsb⌋
    exact ⟨c, by simpa [ltc2607_volts_to_code, h, fdiv, hne] using hc⟩

/-- Witness of C8: a state with different calibrations and `same_cal` false, and the same
state with `same_cal` true. -/
theorem ltc2607_both_needs_same_cal_witness :
    (ltc2607_code_to_volts ⟨1/2, 1/4, 1, 0, false, 0⟩ LTC2607_BOTH 8 3
        = (LTC2607_ERR_NOT_SAME_CAL, 3) ∧
      ltc2607_volts_to_code ⟨1/2, 1/4, 1, 0, false, 0⟩ LTC2607_BOTH (5/2) 7
        = some (LTC2607_ERR_NOT_SAME_CAL, 7)) ∧
    (ltc2607_code_to_volts ⟨1/2, 1/2, 1, 1, true, 0⟩ LTC2607_BOTH 8 3
        = (LTC2607_ERR_OK, (1/2 : ℚ) * ((8 : Nat) : ℚ) + 1) ∧
      ∃ c : Nat, ltc2607_volts_to_code ⟨1/2, 1/2, 1, 1, true, 0⟩ LTC2607_BOTH (5/2) 7
        = some (LTC2607_ERR_OK, c)) :=
  ⟨(ltc2607_both_needs_same_cal ⟨1/2, 1/4, 1, 0, false, 0⟩ 8 3 (5/2) 7).1 rfl,
   ((ltc2607_both_needs_same_cal ⟨1/2, 1/2, 1, 1, true, 0⟩ 8 3 (5/2) 7).2.1 rfl).1,
   ((ltc2607_both_needs_same_cal ⟨1/2, 1/2, 1, 1, true, 0⟩ 8 3 (5/2) 7).2.1 rfl).2
     (by norm_num)⟩

/-! ## LTC2668: evaluation lemmas -/

/-- A channel number `0..15` is its own index into `soft_spans`. -/
theorem ltc2668_channel_index_fin (k : Fin 16) :
    ltc2668_channel_index ((k : Nat) : Int) = some k := by
  unfold ltc2668_channel_index
  have h : 0 ≤ ((k : Nat) : Int) ∧ ((k : Nat) : Int) < 16 := ⟨by omega, by omega⟩
  rw [dif_pos h]
  simp

/-- On a single channel `ltc2668_span_to_min_max` is the `switch` on the recorded span. -/
theorem ltc2668_span_to_min_max_channel (st : Ltc2668State) (k : Fin 16) :
    ltc2668_span_to_min_max st ((k : Nat) : Int)
      = some (ltc2668_span_switch (st.soft_spans k)) := by
  have hne : ((k : Nat) : Int) ≠ LTC2668_ALL_DACS := by
    unfold LTC2668_ALL_DACS; omega
  simp [ltc2668_span_to_min_max, hne, ltc2668_channel_index_fin]

/-- On `LTC2668_ALL_DACS` with the flag set, `ltc2668_span_to_min_max` is the `switch` on the
span recorded for channel 0. -/
theorem ltc2668_span_to_min_max_all (st : Ltc2668State) (h : st.all_same_span ≠ 0) :
    ltc2668_span_to_min_max st LTC2668_ALL_DACS
      = some (ltc2668_span_switch (st.soft_spans 0)) := by
  simp [ltc2668_span_to_min_max, h]

/-- The `switch` on one of the five span codes: it returns `0`, writes the minimum of the
header table, and writes the maximum of the header table except for
`LTC2668_SPAN_PLUS_MINUS_5V`, where it writes `0.5`. -/
theorem ltc2668_span_switch_valid (s : Fin 5) :
    ltc2668_span_switch (s : Nat)
      = (LTC2668_ERR_OK,
          some (LTC2668_MIN_OUTPUT s, if (s : Nat) = 2 then 1/2 else LTC2668_MAX_OUTPUT s)) := by
  fin_cases s <;>
    simp [ltc2668_span_switch, LTC2668_ERR_OK, LTC2668_MIN_OUTPUT, LTC2668_MAX_OUTPUT]

/-- The range written for a valid span is not empty and lies within the header's range. -/
theorem ltc2668_span_range_bounds (s : Fin 5) :
    LTC2668_MIN_OUTPUT s < (if (s : Nat) = 2 then 1/2 else LTC2668_MAX_OUTPUT s) ∧
    (if (s : Nat) = 2 then (1/2 : ℚ) else LTC2668_MAX_OUTPUT s) ≤ LTC2668_MAX_OUTPUT s := by
  fin_cases s <;> norm_num [LTC2668_MIN_OUTPUT, LTC2668_MAX_OUTPUT]

/-- The `switch` on a span code above 4 takes the `default` branch. -/
theorem ltc2668_span_switch_bad (span : Nat) (h : 4 < span) :
    ltc2668_span_switch span = (LTC2668_ERR_BAD_SPAN, none) := by
  obtain ⟨n, rfl⟩ : ∃ n, span = n + 5 := ⟨span - 5, by omega⟩
  rfl

/-- The three-way test of `ltc2668_volts_to_code` is the saturation into `[0, 65535]`. -/
theorem ltc2668_clamp_branches (z : Int) :
    ∃ code : Nat,
      (if z < 0 then some ((0 : Int), 0)
        else if z > LTC2668_FULL_SCALE then some ((0 : Int), LTC2668_FULL_SCALE.toNat)
        else some ((0 : Int), to_uint16 z)) = some ((0 : Int), code)
      ∧ (code : Int) = max 0 (min 65535 z) := by
  unfold LTC2668_FULL_SCALE
  by_cases h2 : z < 0
  · refine ⟨0, by simp [h2], ?_⟩
    have hm : min 65535 z = z := min_eq_right (by omega)
    rw [hm, max_eq_left (le_of_lt h2)]; rfl
  · by_cases h1 : z > 65535
    · refine ⟨65535, by simp [h1, h2], ?_⟩
      have : min 65535 z = 65535 := min_eq_left (le_of_lt h1)
      rw [this]; rfl
    · refine ⟨to_uint16 z, by simp [h1, h2], ?_⟩
      have hm : min 65535 z = z := min_eq_right (by omega)
      rw [hm, max_eq_right (by omega)]
      exact to_uint16_of_range z (by omega) (by omega)

/-- Evaluation of `ltc2668_volts_to_code` once `ltc2668_span_to_min_max` has produced the
range `(lo, hi)` with `hi ≠ lo`. -/
theorem ltc2668_volts_to_code_eval (st : Ltc2668State) (sel : Int) (lo hi v : ℚ) (old : Nat)
    (h : ltc2668_span_to_min_max st sel = some (LTC2668_ERR_OK, some (lo, hi)))
    (hne : hi - lo ≠ 0) :
    ∃ code : Nat,
      ltc2668_volts_to_code st sel v old = some (0, code) ∧
      (code : Int) = max 0 (min 65535 ⌊65535 * (v - lo) / (hi - lo)⌋) := by
  obtain ⟨code, hcode, hval⟩ := ltc2668_clamp_branches ⌊65535 * (v - lo) / (hi - lo)⌋
  refine ⟨code, ?_, hval⟩
  simpa [ltc2668_volts_to_code, h, fdiv, hne, LTC2668_ERR_OK, LTC2668_FULL_SCALE] using hcode

/-- Evaluation of `ltc2668_code_to_volts` once `ltc2668_span_to_min_max` has produced the
range `(lo, hi)`. -/
theorem ltc2668_code_to_volts_eval (st : Ltc2668State) (sel : Int) (lo hi : ℚ) (c : Nat)
    (volts : ℚ)
    (h : ltc2668_span_to_min_max st sel = some (LTC2668_ERR_OK, some (lo, hi))) :
    ltc2668_code_to_volts st sel c volts = some (0, ((c : ℚ) / 65535) * (hi - lo) + lo) := by
  simp [ltc2668_code_to_volts, h, LTC2668_ERR_OK, LTC2668_FULL_SCALE]

/-- Both conversions stop at an error of `ltc2668_span_to_min_max` and leave their output. -/
theorem ltc2668_conversions_error (st : Ltc2668State) (sel : Int) (e : Int)
    (r : Option (ℚ × ℚ)) (h : ltc2668_span_to_min_max st sel = some (e, r))
    (he : e ≠ LTC2668_ERR_OK) (v volts : ℚ) (old c : Nat) :
    ltc2668_volts_to_code st sel v old = some (e, old) ∧
    ltc2668_code_to_volts st sel c volts = some (e, volts) := by
  simp [ltc2668_volts_to_code, ltc2668_code_to_volts, h, he]

/-- A code that is the saturation of `z` is `0` for `z ≤ 0`. -/
theorem clamp_eq_zero_of_nonpos (code : Nat) (z : Int)
    (h : (code : Int) = max 0 (min 65535 z)) (hz : z ≤ 0) : code = 0 := by
  have hm : max 0 (min 65535 z) = 0 := max_eq_left (le_trans (min_le_right _ _) hz)
  rw [hm] at h
  exact_mod_cast h

/-- Saturation of `ltc2668_volts_to_code` with respect to a non-empty range `(lo, hi)` that
`ltc2668_span_to_min_max` has produced. -/
theorem ltc2668_saturates_of_range (st : Ltc2668State) (sel : Int) (lo hi v : ℚ) (old : Nat)
    (h : ltc2668_span_to_min_max st sel = some (LTC2668_ERR_OK, some (lo, hi)))
    (hlt : lo < hi) :
    (∃ code : Nat, ltc2668_volts_to_code st sel v old = some (0, code) ∧ code ≤ 65535) ∧
    (v ≤ lo → ltc2668_volts_to_code st sel v old = some (0, 0)) ∧
    (hi ≤ v → ltc2668_volts_to_code st sel v old = some (0, 65535)) := by
  have hpos : 0 < hi - lo := sub_pos.mpr hlt
  obtain ⟨code, hcode, hval⟩ :=
    ltc2668_volts_to_code_eval st sel lo hi v old h (ne_of_gt hpos)
  refine ⟨⟨code, hcode, clamp_le_full code _ hval⟩, ?_, ?_⟩
  · intro hv
    have hq : 65535 * (v - lo) / (hi - lo) ≤ 0 := by
      rw [div_le_iff₀ hpos]
      linarith
    have hz : ⌊65535 * (v - lo) / (hi - lo)⌋ ≤ 0 := Int.floor_nonpos hq
    rw [hcode, clamp_eq_zero_of_nonpos code _ hval hz]
  · intro hv
    have hq : ((65535 : Int) : ℚ) ≤ 65535 * (v - lo) / (hi - lo) := by
      rw [le_div_iff₀ hpos]
      push_cast
      nlinarith
    have hz : (65535 : Int) ≤ ⌊65535 * (v - lo) / (hi - lo)⌋ := Int.le_floor.mpr hq
    rw [hcode, clamp_eq_full_of_ge code _ hval hz]

/-! ## LTC2668: theorems -/

/-- C4. `ltc2668_volts_to_code` saturates: on a channel whose recorded span is one of the five
valid spans, the call returns `0` with a code in `[0, 65535]` for every voltage; a voltage at
or below the minimum of the span yields code `0` and a voltage at or above its maximum yields
`65535`, both for the range of the header tables and for the range that
`ltc2668_span_to_min_max` produces. -/
theorem ltc2668_volts_to_code_saturates (st : Ltc2668State) (k : Fin 16) (s : Fin 5)
    (hs : st.soft_spans k = (s : Nat)) (v : ℚ) (old : Nat) :
    (∃ code : Nat,
      ltc2668_volts_to_code st ((k : Nat) : Int) v old = some (0, code) ∧ code ≤ 65535) ∧
    (v ≤ LTC2668_MIN_OUTPUT s →
      ltc2668_volts_to_code st ((k : Nat) : Int) v old = some (0, 0)) ∧
    (LTC2668_MAX_OUTPUT s ≤ v →
      ltc2668_volts_to_code st ((k : Nat) : Int) v old = some (0, 65535)) ∧
    (∀ lo hi : ℚ,
      ltc2668_span_to_min_max st ((k : Nat) : Int) = some (LTC2668_ERR_OK, some (lo, hi)) →
      (v ≤ lo → ltc2668_volts_to_code st ((k : Nat) : Int) v old = some (0, 0)) ∧
      (hi ≤ v → ltc2668_volts_to_code st ((k : Nat) : Int) v old = some (0, 65535))) := by
  have hrange : ltc2668_span_to_min_max st ((k : Nat) : Int)
      = some (LTC2668_ERR_OK, some (LTC2668_MIN_OUTPUT s,
          if (s : Nat) = 2 then 1/2 else LTC2668_MAX_OUTPUT s)) := by
    rw [ltc2668_span_to_min_max_channel, hs, ltc2668_span_switch_valid]
  obtain ⟨hlt, hle⟩ := ltc2668_span_range_bounds s
  obtain ⟨hex, hlo, hhi⟩ := ltc2668_saturates_of_range st _ _ _ v old hrange hlt
  refine ⟨hex, hlo, fun hv => hhi (le_trans hle hv), ?_⟩
  intro lo hi hlh
  rw [hrange] at hlh
  simp only [Option.some.injEq, Prod.mk.injEq, true_and] at hlh
  obtain ⟨h1, h2⟩ := hlh
  rw [← h1, ← h2]
  exact ⟨hlo, hhi⟩

/-- Witness of C4: channel 3 with the span `±10V` at 12 volts. -/
theorem ltc2668_volts_to_code_saturates_witness :
    (∃ code : Nat,
      ltc2668_volts_to_code (ltc2668_uniform_state 3 1) ((3 : Nat) : Int) 12 7
        = some (0, code) ∧ code ≤ 65535) ∧
    ltc2668_volts_to_code (ltc2668_uniform_state 3 1) ((3 : Nat) : Int) 12 7
      = some (0, 65535) :=
  ⟨(ltc2668_volts_to_code_saturates (ltc2668_uniform_state 3 1) 3 3 rfl 12 7).1,
   (ltc2668_volts_to_code_saturates (ltc2668_uniform_state 3 1) 3 3 rfl 12 7).2.2.1
     (by norm_num [LTC2668_MAX_OUTPUT])⟩

/-- C5. On a channel recorded with `LTC2668_SPAN_PLUS_MINUS_5V` (span id 2),
`ltc2668_span_to_min_max` returns `0` and writes `(-5, 0.5)`, whereas the header tables hold
`(LTC2668_MIN_OUTPUT[2], LTC2668_MAX_OUTPUT[2]) = (-5, 5)`. -/
theorem ltc2668_span_to_min_max_plus_minus_5v :
    ltc2668_span_to_min_max (ltc2668_uniform_state LTC2668_SPAN_PLUS_MINUS_5V 1) 0
      = some (0, some (-5, 1/2)) ∧
    (LTC2668_MIN_OUTPUT 2, LTC2668_MAX_OUTPUT 2) = ((-5 : ℚ), (5 : ℚ)) ∧
    ((-5 : ℚ), (1/2 : ℚ)) ≠ (LTC2668_MIN_OUTPUT 2, LTC2668_MAX_OUTPUT 2) := by
  refine ⟨rfl, ?_, ?_⟩
  · simp [LTC2668_MIN_OUTPUT, LTC2668_MAX_OUTPUT]
  · norm_num [LTC2668_MIN_OUTPUT, LTC2668_MAX_OUTPUT]

/-- C7. For a channel `0..15`, or `LTC2668_ALL_DACS` with the uniformity flag set, whose
recorded span is not one of `0..4`, `ltc2668_volts_to_code` and `ltc2668_code_to_volts` return
`LTC2668_ERR_BAD_SPAN` and leave their output as it was; this code differs from
`LTC2668_ERR_OK`, `LTC2668_ERR_MISMATCH` and `LTC2668_ERR_NOT_SAME_SPAN`. -/
theorem ltc2668_bad_span_reported (st : Ltc2668State) (sel : Int) (span : Nat)
    (hsel : (sel = LTC2668_ALL_DACS ∧ st.all_same_span ≠ 0 ∧ span = st.soft_spans 0) ∨
            (∃ k : Fin 16, sel = ((k : Nat) : Int) ∧ span = st.soft_spans k))
    (hspan : 4 < span) (v volts : ℚ) (old c : Nat) :
    ltc2668_volts_to_code st sel v old = some (LTC2668_ERR_BAD_SPAN, old) ∧
    ltc2668_code_to_volts st sel c volts = some (LTC2668_ERR_BAD_SPAN, volts) ∧
    LTC2668_ERR_BAD_SPAN ≠ LTC2668_ERR_OK ∧
    LTC2668_ERR_BAD_SPAN ≠ LTC2668_ERR_MISMATCH ∧
    LTC2668_ERR_BAD_SPAN ≠ LTC2668_ERR_NOT_SAME_SPAN := by
  have hsw : ltc2668_span_to_min_max st sel = some (LTC2668_ERR_BAD_SPAN, none) := by
    rcases hsel with ⟨h1, h2, h3⟩ | ⟨k, h1, h3⟩
    · rw [h1, ltc2668_span_to_min_max_all st h2, ← h3, ltc2668_span_switch_bad span hspan]
    · rw [h1, ltc2668_span_to_min_max_channel, ← h3, ltc2668_span_switch_bad span hspan]
  have hne : LTC2668_ERR_BAD_SPAN ≠ LTC2668_ERR_OK := by decide
  obtain ⟨hv, hc⟩ := ltc2668_conversions_error st sel _ _ hsw hne v volts old c
  exact ⟨hv, hc, hne, by decide, by decide⟩

/-- Witness of C7: `LTC2668_ALL_DACS` on a state with span code 9 on every channel. -/
theorem ltc2668_bad_span_reported_witness :
    ltc2668_volts_to_code (ltc2668_uniform_state 9 1) LTC2668_ALL_DACS 1 7
      = some (LTC2668_ERR_BAD_SPAN, 7) ∧
    ltc2668_code_to_volts (ltc2668_uniform_state 9 1) LTC2668_ALL_DACS 100 3
      = some (LTC2668_ERR_BAD_SPAN, 3) :=
  ⟨(ltc2668_bad_span_reported (ltc2668_uniform_state 9 1) LTC2668_ALL_DACS 9
      (Or.inl ⟨rfl, by decide, rfl⟩) (by decide) 1 3 7 100).1,
   (ltc2668_bad_span_reported (ltc2668_uniform_state 9 1) LTC2668_ALL_DACS 9
      (Or.inl ⟨rfl, by decide, rfl⟩) (by decide) 1 3 7 100).2.1⟩

/-! ## LTC2668: the loops of `ltc2668_write` and `ltc2668_set_softspan` -/

/-- A loop that writes `f i` into the cell `i` of an array, over the indices of `l`. -/
theorem foldl_update_cells {n : Nat} (f : Fin n → Nat) (l : List (Fin n)) (g : Fin n → Nat) :
    l.foldl (fun acc i => Function.update acc i (f i)) g
      = fun j => if j ∈ l then f j else g j := by
  induction l generalizing g with
  | nil => simp
  | cons a l ih =>
    rw [List.foldl_cons, ih]
    funext j
    by_cases hj : j ∈ l
    · simp [hj]
    · by_cases hja : j = a
      · subst hja; simp [hj]
      · simp [hj, hja, Function.update_noteq hja]

/-- The copy loop of `ltc2668_write` under `FAKE` leaves `rx` equal to `previous_data`. -/
theorem for_loop_copy (f g : Fin 4 → Nat) :
    for_loop 4 (fun i rx => Function.update rx i (f i)) g = f := by
  unfold for_loop
  rw [foldl_update_cells]
  funext j
  simp [List.mem_finRange]

/-- A loop whose body leaves the current state as it is leaves it over any index list. -/
theorem foldl_fixed {α σ : Type} (body : σ → α → σ) (s : σ) (l : List α)
    (h : ∀ i, body s i = s) : l.foldl body s = s := by
  induction l with
  | nil => rfl
  | cons a l ih => rw [List.foldl_cons, h a, ih]

/-- An echo equal to the stored word is accepted and changes nothing. -/
theorem ltc2668_check_and_copy_same (state : Ltc2668State) :
    ltc2668_check_and_copy_transaction state state.previous_data
      = (LTC2668_ERR_OK, state) := by
  unfold ltc2668_check_and_copy_transaction for_loop
  apply foldl_fixed
  intro i
  simp

/-- As compiled (`FAKE`), `ltc2668_write` returns `LTC2668_ERR_OK` and leaves the state. -/
theorem ltc2668_write_fake (state : Ltc2668State) (dac_command dac_address dac_code : Nat) :
    ltc2668_write state dac_command dac_address dac_code = (LTC2668_ERR_OK, state) := by
  unfold ltc2668_write
  simp only [for_loop_copy]
  exact ltc2668_check_and_copy_same state

/-- The loop of `ltc2668_set_softspan` on `LTC2668_ALL_DACS`, over the indices of `l`. -/
theorem foldl_set_spans (soft_span : Nat) (l : List (Fin 16)) (st : Ltc2668State) :
    l.foldl (fun (acc : Ltc2668State) i =>
        { acc with soft_spans := Function.update acc.soft_spans i soft_span }) st
      = { st with soft_spans := fun j => if j ∈ l then soft_span else st.soft_spans j } := by
  induction l generalizing st with
  | nil => simp
  | cons a l ih =>
    rw [List.foldl_cons, ih]
    congr 1
    funext j
    by_cases hj : j ∈ l
    · simp [hj]
    · by_cases hja : j = a
      · subst hja; simp [hj]
      · simp [hj, hja, Function.update_noteq hja]

/-- The scan loop of `ltc2668_set_softspan` on a single channel, once it has left by `break`,
skips the remaining indices. -/
theorem foldl_scan_broken (soft_span : Nat) (l : List (Fin 16)) (st : Ltc2668State) :
    l.foldl (fun (acc : Ltc2668State × Bool) i =>
        if acc.2 then acc
        else if acc.1.soft_spans i ≠ soft_span then
          ({ acc.1 with all_same_span := 0 }, true)
        else (acc.1, false)) (st, true) = (st, true) := by
  apply foldl_fixed
  intro i
  simp

/-- The scan loop of `ltc2668_set_softspan` on a single channel, over the indices of `l`:
the flag is cleared when some span differs from `soft_span`, and is left as it is otherwise. -/
theorem foldl_scan_spans (soft_span : Nat) (l : List (Fin 16)) (st : Ltc2668State) :
    (l.foldl (fun (acc : Ltc2668State × Bool) i =>
        if acc.2 then acc
        else if acc.1.soft_spans i ≠ soft_span then
          ({ acc.1 with all_same_span := 0 }, true)
        else (acc.1, false)) (st, false)).1
      = if ∀ j ∈ l, st.soft_spans j = soft_span then st
        else { st with all_same_span := 0 } := by
  induction l with
  | nil => simp
  | cons a l ih =>
    rw [List.foldl_cons]
    by_cases ha : st.soft_spans a = soft_span
    · simp only [ha, ne_eq, not_true_eq_false, if_false, Bool.false_eq_true]
      rw [ih]
      simp [ha]
    · simp only [ha, ne_eq, not_false_eq_true, if_true, Bool.false_eq_true, if_false]
      rw [foldl_scan_broken]
      simp [ha]

/-- Effect of `ltc2668_set_softspan` on `LTC2668_ALL_DACS`. -/
theorem ltc2668_set_softspan_all_eval (st : Ltc2668State) (s : Nat) :
    ltc2668_set_softspan st LTC2668_ALL_DACS s
      = some (LTC2668_ERR_OK,
          { st with all_same_span := 1, soft_spans := fun _ => s }) := by
  unfold ltc2668_set_softspan
  simp only [if_true, ltc2668_write_fake, for_loop, foldl_set_spans, List.mem_finRange]

/-- Effect of `ltc2668_set_softspan` on a single channel `k`: the span of `k` is recorded; the
flag is cleared when some recorded span then differs from `s`, and is left as it was
otherwise. -/
theorem ltc2668_set_softspan_channel_eval (st : Ltc2668State) (k : Fin 16) (s : Nat) :
    ltc2668_set_softspan st ((k : Nat) : Int) s
      = some (LTC2668_ERR_OK,
          { st with
            soft_spans := Function.update st.soft_spans k s,
            all_same_span :=
              if ∀ j, Function.update st.soft_spans k s j = s then st.all_same_span else 0 }) := by
  have hne : ((k : Nat) : Int) ≠ LTC2668_ALL_DACS := by
    unfold LTC2668_ALL_DACS; omega
  unfold ltc2668_set_softspan
  simp only [hne, if_false, ltc2668_channel_index_fin, ltc2668_write_fake, for_loop_break,
    foldl_scan_spans, List.mem_finRange, true_implies]
  by_cases h : ∀ j, Function.update st.soft_spans k s j = s
  · simp [h]
  · simp [h]

/-- C9. Failing run of the uniformity flag: from the state with span `0..5V` on all 16
channels and the flag set, `ltc2668_set_softspan(state, 3, LTC2668_SPAN_0_TO_10V)` clears the
flag; the following `ltc2668_set_softspan(state, 3, LTC2668_SPAN_0_TO_5V)` makes all 16
recorded spans equal again, and `all_same_span` is still `0` after it. -/
theorem ltc2668_set_softspan_flag_stays_cleared :
    ∃ st1 : Ltc2668State,
      ltc2668_set_softspan (ltc2668_uniform_state LTC2668_SPAN_0_TO_5V 1) 3
          LTC2668_SPAN_0_TO_10V = some (LTC2668_ERR_OK, st1) ∧
      st1.soft_spans 3 = LTC2668_SPAN_0_TO_10V ∧ st1.all_same_span = 0 ∧
      ∃ st2 : Ltc2668State,
        ltc2668_set_softspan st1 3 LTC2668_SPAN_0_TO_5V = some (LTC2668_ERR_OK, st2) ∧
        (∀ i : Fin 16, st2.soft_spans i = LTC2668_SPAN_0_TO_5V) ∧
        st2.all_same_span = 0 :=
  ⟨_, ltc2668_set_softspan_channel_eval _ 3 _, by decide, by decide,
    _, ltc2668_set_softspan_channel_eval _ 3 _, by decide, by decide⟩

/-- C10. After `ltc2668_set_softspan(state, LTC2668_ALL_DACS, s)` each of the 16 recorded
spans is `s` and `all_same_span` is true (`1`), whatever the state was before. -/
theorem ltc2668_set_softspan_all_dacs (st : Ltc2668State) (s : Nat) :
    ∃ (r : Int) (st2 : Ltc2668State),
      ltc2668_set_softspan st LTC2668_ALL_DACS s = some (r, st2) ∧
      (∀ i : Fin 16, st2.soft_spans i = s) ∧
      st2.all_same_span = 1 ∧ st2.all_same_span ≠ 0 :=
  ⟨_, _, ltc2668_set_softspan_all_eval st s, fun _ => rfl, rfl, by
    show (1 : Nat) ≠ 0
    decide⟩

/-! ## LTC2668: the echo check -/

/-- The loop of `ltc2668_check_and_copy_transaction` over a list of distinct indices, started
with the result `r`: it reports a mismatch when a stored byte of the list differs from the
received one, keeps `r` otherwise, and stores the received bytes of the list. -/
theorem foldl_check_and_copy (rx : Fin 4 → Nat) (l : List (Fin 4)) (hl : l.Nodup)
    (r : Int) (st : Ltc2668State) :
    l.foldl (fun (acc : Int × Ltc2668State) i =>
        ((if acc.2.previous_data i ≠ rx i then LTC2668_ERR_MISMATCH else acc.1),
          { acc.2 with previous_data := Function.update acc.2.previous_data i (rx i) }))
        (r, st)
      = ((if ∃ i ∈ l, st.previous_data i ≠ rx i then LTC2668_ERR_MISMATCH else r),
          { st with previous_data := fun j => if j ∈ l then rx j else st.previous_data j }) := by
  induction l generalizing r st with
  | nil => simp
  | cons a l ih =>
    have ha : a ∉ l := (List.nodup_cons.mp hl).1
    rw [List.foldl_cons, ih (List.nodup_cons.mp hl).2]
    have hsame : ∀ i ∈ l, Function.update st.previous_data a (rx a) i = st.previous_data i := by
      intro i hi
      exact Function.update_noteq (fun h => ha (by rw [← h]; exact hi)) _ _
    have hex : (∃ i ∈ l, Function.update st.previous_data a (rx a) i ≠ rx i)
        ↔ (∃ i ∈ l, st.previous_data i ≠ rx i) := by
      constructor
      · rintro ⟨i, hi, h⟩
        exact ⟨i, hi, by rwa [hsame i hi] at h⟩
      · rintro ⟨i, hi, h⟩
        exact ⟨i, hi, by rwa [hsame i hi]⟩
    refine Prod.ext ?_ ?_
    · simp only [hex]
      by_cases h1 : ∃ i ∈ l, st.previous_data i ≠ rx i
      · have h2 : ∃ i ∈ a :: l, st.previous_data i ≠ rx i := by
          obtain ⟨i, hi, h⟩ := h1
          exact ⟨i, List.mem_cons_of_mem a hi, h⟩
        rw [if_pos h1, if_pos h2]
      · by_cases h0 : st.previous_data a ≠ rx a
        · have h2 : ∃ i ∈ a :: l, st.previous_data i ≠ rx i :=
            ⟨a, List.mem_cons_self a l, h0⟩
          rw [if_neg h1, if_pos h2, if_pos h0]
        · have h2 : ¬ ∃ i ∈ a :: l, st.previous_data i ≠ rx i := by
            rintro ⟨i, hi, h⟩
            rcases List.mem_cons.mp hi with rfl | hi
            · exact h0 h
            · exact h1 ⟨i, hi, h⟩
          rw [if_neg h1, if_neg h2, if_neg h0]
    · show ({ st with previous_data := _ } : Ltc2668State) = _
      congr 1
      funext j
      by_cases hj : j ∈ l
      · simp [hj]
      · by_cases hja : j = a
        · subst hja; simp [hj]
        · simp [hj, hja, Function.update_noteq hja]

/-- Effect of `ltc2668_check_and_copy_transaction`: the result is `LTC2668_ERR_MISMATCH` when
some stored byte differs from the received one and `LTC2668_ERR_OK` otherwise; the received
word replaces the stored one and nothing else changes. -/
theorem ltc2668_check_and_copy_eval (st : Ltc2668State) (rx : Fin 4 → Nat) :
    ltc2668_check_and_copy_transaction st rx
      = ((if ∃ i, st.previous_data i ≠ rx i then LTC2668_ERR_MISMATCH else LTC2668_ERR_OK),
          { st with previous_data := rx }) := by
  unfold ltc2668_check_and_copy_transaction for_loop
  rw [foldl_check_and_copy rx _ (List.nodup_finRange 4)]
  simp [List.mem_finRange]

/-- Effect of `ltc2668_init`: the spans, the flag and the three scalar fields are reset;
`previous_data` is what it was before the call. -/
theorem ltc2668_init_eval (st : Ltc2668State) :
    ltc2668_init st
      = some { soft_spans := fun _ => LTC2668_SPAN_0_TO_5V, mux_selected_dac := 0,
               select_bits := 0, all_same_span := 1, global_toggle := 0,
               previous_data := st.previous_data } := by
  unfold ltc2668_init ltc2668_power_down_dac ltc2668_write_and_update_dac
  simp only [ltc2668_write_fake, ltc2668_set_softspan_all_eval, for_loop, foldl_set_spans,
    List.mem_finRange, if_true]

/-- On `LTC2668_ALL_DACS` with the flag cleared, `ltc2668_span_to_min_max` returns
`LTC2668_ERR_NOT_SAME_SPAN` and writes nothing. -/
theorem ltc2668_span_to_min_max_not_same (st : Ltc2668State) (h : st.all_same_span = 0) :
    ltc2668_span_to_min_max st LTC2668_ALL_DACS = some (LTC2668_ERR_NOT_SAME_SPAN, none) := by
  simp [ltc2668_span_to_min_max, h]

/-- C11. From a state in which all 16 channels have the span `X`,
`ltc2668_set_softspan(state, k, Y)` on a single channel `k` with `Y ≠ X` leaves
`all_same_span` false, and a following `ltc2668_code_to_volts` or `ltc2668_volts_to_code`
with `LTC2668_ALL_DACS` returns `LTC2668_ERR_NOT_SAME_SPAN` and leaves its output as it was. -/
theorem ltc2668_span_change_breaks_uniformity (st : Ltc2668State) (k : Fin 16) (X Y : Nat)
    (hX : ∀ i : Fin 16, st.soft_spans i = X) (hXY : X ≠ Y) :
    ∃ st2 : Ltc2668State,
      ltc2668_set_softspan st ((k : Nat) : Int) Y = some (LTC2668_ERR_OK, st2) ∧
      st2.all_same_span = 0 ∧ st2.soft_spans k = Y ∧
      (∀ (c : Nat) (volts : ℚ),
        ltc2668_code_to_volts st2 LTC2668_ALL_DACS c volts
          = some (LTC2668_ERR_NOT_SAME_SPAN, volts)) ∧
      (∀ (v : ℚ) (old : Nat),
        ltc2668_volts_to_code st2 LTC2668_ALL_DACS v old
          = some (LTC2668_ERR_NOT_SAME_SPAN, old)) := by
  have hnot : ¬ ∀ j, Function.update st.soft_spans k Y j = Y := by
    intro hall
    obtain ⟨j, hj⟩ : ∃ j : Fin 16, j ≠ k := by
      by_cases hk : k = 0
      · exact ⟨1, by rw [hk]; decide⟩
      · exact ⟨0, fun h => hk h.symm⟩
    have := hall j
    rw [Function.update_noteq hj, hX j] at this
    exact hXY this
  refine ⟨_, ltc2668_set_softspan_channel_eval st k Y, ?_, ?_, ?_, ?_⟩
  · simp [hnot]
  · simp
  · intro c volts
    exact (ltc2668_conversions_error _ _ _ _
      (ltc2668_span_to_min_max_not_same _ (by simp [hnot])) (by decide) 0 volts 0 c).2
  · intro v old
    exact (ltc2668_conversions_error _ _ _ _
      (ltc2668_span_to_min_max_not_same _ (by simp [hnot])) (by decide) v 0 old 0).1

/-- Witness of C11: channel 3 of the state with span `0..5V` everywhere is set to `±10V`. -/
theorem ltc2668_span_change_breaks_uniformity_witness :
    ∃ st2 : Ltc2668State,
      ltc2668_set_softspan (ltc2668_uniform_state 0 1) ((3 : Nat) : Int) 3
        = some (LTC2668_ERR_OK, st2) ∧
      st2.all_same_span = 0 ∧ st2.soft_spans 3 = 3 ∧
      (∀ (c : Nat) (volts : ℚ),
        ltc2668_code_to_volts st2 LTC2668_ALL_DACS c volts
          = some (LTC2668_ERR_NOT_SAME_SPAN, volts)) ∧
      (∀ (v : ℚ) (old : Nat),
        ltc2668_volts_to_code st2 LTC2668_ALL_DACS v old
          = some (LTC2668_ERR_NOT_SAME_SPAN, old)) :=
  ltc2668_span_change_breaks_uniformity (ltc2668_uniform_state 0 1) 3 0 3
    (fun _ => rfl) (by decide)

/-- C12. `ltc2668_check_and_copy_transaction` returns `LTC2668_ERR_MISMATCH` if and only if
the received word differs from the stored `previous_data` in at least one of the 4 bytes,
and `LTC2668_ERR_OK` otherwise. -/
theorem ltc2668_check_mismatch_iff (st : Ltc2668State) (rx : Fin 4 → Nat) :
    ((ltc2668_check_and_copy_transaction st rx).1 = LTC2668_ERR_MISMATCH
      ↔ ∃ i : Fin 4, rx i ≠ st.previous_data i) ∧
    ((ltc2668_check_and_copy_transaction st rx).1 = LTC2668_ERR_OK
      ↔ ∀ i : Fin 4, rx i = st.previous_data i) := by
  rw [ltc2668_check_and_copy_eval]
  dsimp only
  by_cases h : ∃ i, st.previous_data i ≠ rx i
  · have h2 : ∃ i : Fin 4, rx i ≠ st.previous_data i := by
      obtain ⟨i, hi⟩ := h
      exact ⟨i, fun e => hi e.symm⟩
    have h3 : ¬ ∀ i : Fin 4, rx i = st.previous_data i := by
      obtain ⟨i, hi⟩ := h2
      exact fun hall => hi (hall i)
    rw [if_pos h]
    exact ⟨⟨fun _ => h2, fun _ => rfl⟩,
      ⟨fun e => absurd e (by decide), fun hall => absurd hall h3⟩⟩
  · have h2 : ¬ ∃ i : Fin 4, rx i ≠ st.previous_data i := by
      rintro ⟨i, hi⟩
      exact h ⟨i, fun e => hi e.symm⟩
    have h3 : ∀ i : Fin 4, rx i = st.previous_data i := by
      intro i
      by_contra hne
      exact h2 ⟨i, hne⟩
    rw [if_neg h]
    exact ⟨⟨fun e => absurd e (by decide), fun hex => absurd hex h2⟩,
      ⟨fun _ => h3, fun _ => rfl⟩⟩

/-- C13. After `ltc2668_check_and_copy_transaction` the stored `previous_data` equals the
received word in all 4 bytes, whatever the result, and `soft_spans`, `all_same_span`,
`mux_selected_dac`, `select_bits` and `global_toggle` are what they were. -/
theorem ltc2668_check_copies_word (st : Ltc2668State) (rx : Fin 4 → Nat) :
    (∀ i : Fin 4, (ltc2668_check_and_copy_transaction st rx).2.previous_data i = rx i) ∧
    (ltc2668_check_and_copy_transaction st rx).2.soft_spans = st.soft_spans ∧
    (ltc2668_check_and_copy_transaction st rx).2.all_same_span = st.all_same_span ∧
    (ltc2668_check_and_copy_transaction st rx).2.mux_selected_dac = st.mux_selected_dac ∧
    (ltc2668_check_and_copy_transaction st rx).2.select_bits = st.select_bits ∧
    (ltc2668_check_and_copy_transaction st rx).2.global_toggle = st.global_toggle := by
  rw [ltc2668_check_and_copy_eval]
  exact ⟨fun _ => rfl, rfl, rfl, rfl, rfl, rfl⟩

/-- C14. Calling `ltc2668_check_and_copy_transaction` with `w1` and then with `w2`: the
second call returns `LTC2668_ERR_MISMATCH` exactly when `w2 ≠ w1` and `LTC2668_ERR_OK` when
`w2 = w1`, whatever the first call returned, and leaves `w2` stored. -/
theorem ltc2668_check_not_stuck (st : Ltc2668State) (w1 w2 : Fin 4 → Nat) :
    ((ltc2668_check_and_copy_transaction
        (ltc2668_check_and_copy_transaction st w1).2 w2).1 = LTC2668_ERR_MISMATCH
      ↔ w2 ≠ w1) ∧
    ((ltc2668_check_and_copy_transaction
        (ltc2668_check_and_copy_transaction st w1).2 w2).1 = LTC2668_ERR_OK
      ↔ w2 = w1) ∧
    (ltc2668_check_and_copy_transaction
        (ltc2668_check_and_copy_transaction st w1).2 w2).2.previous_data = w2 := by
  rw [ltc2668_check_and_copy_eval st w1, ltc2668_check_and_copy_eval _ w2]
  dsimp only
  by_cases h : w2 = w1
  · have hn : ¬ ∃ i : Fin 4, w1 i ≠ w2 i := by
      rintro ⟨i, hi⟩
      exact hi (by rw [h])
    rw [if_neg hn]
    exact ⟨⟨fun e => absurd e (by decide), fun hne => absurd h hne⟩,
      ⟨fun _ => h, fun _ => rfl⟩, rfl⟩
  · have hy : ∃ i : Fin 4, w1 i ≠ w2 i := by
      by_contra hcon
      apply h
      funext i
      by_contra hne
      exact hcon ⟨i, fun e => hne e.symm⟩
    rw [if_pos hy]
    exact ⟨⟨fun _ => h, fun _ => rfl⟩,
      ⟨fun e => absurd e (by decide), fun e => absurd e h⟩, rfl⟩

/-- A code below `2^31` is its own `int32_t` value. -/
theorem to_int32_of_lt (n : Nat) (h : n < 2147483648) : to_int32 (n : Int) = (n : Int) := by
  unfold to_int32
  have h1 : (n : Int) % 4294967296 = (n : Int) := by omega
  rw [h1, if_pos (by omega)]

/-- A value within the range of `int32_t` is its own `int32_t` value. -/
theorem to_int32_of_range (z : Int) (h0 : -2147483648 ≤ z) (h1 : z < 2147483648) :
    to_int32 z = z := by
  unfold to_int32
  split <;> omega

/-- The `uint32_t` difference of two codes in increasing order is their difference. -/
theorem to_uint32_sub_of_le (l h : Nat) (hl : l ≤ h) (hh : h < 4294967296) :
    to_uint32 ((h : Int) - (l : Int)) = h - l := by
  unfold to_uint32
  omega

/-- The `uint32_t` difference of a code with itself is zero. -/
theorem to_uint32_sub_self (c : Nat) : to_uint32 ((c : Int) - (c : Int)) = 0 := by
  unfold to_uint32
  omega

/-- With equal ADC codes at the two points, `cal_one_channel` divides by zero. -/
theorem cal_one_channel_same_code (s : Ltc2422State) (c : Nat) :
    cal_one_channel s c c = none := by
  unfold cal_one_channel
  rw [to_uint32_sub_self]
  simp [fdiv]

/-- With ADC codes `l < h` below `2^31`, `cal_one_channel` writes `-0x200000 * lsb` to
`*offset` and the ADC `lsb` to `*lsb`, whatever the two codes are. -/
theorem cal_one_channel_increasing (s : Ltc2422State) (l h : Nat) (hlh : l < h)
    (hh : h < 2147483648) :
    cal_one_channel s l h = some (-2097152 * s.lsb, s.lsb) := by
  have hd : ((h - l : Nat) : ℚ) ≠ 0 := by
    have : 0 < h - l := Nat.sub_pos_of_lt hlh
    exact_mod_cast (ne_of_gt this)
  have hcast : ((h - l : Nat) : ℚ) = (h : ℚ) - (l : ℚ) := Nat.cast_sub (le_of_lt hlh)
  have hmod : l % 4294967296 = l := Nat.mod_eq_of_lt (by omega)
  unfold cal_one_channel ltc2422_code_to_volts
  rw [to_int32_of_lt l (by omega), to_int32_of_lt h hh,
    to_int32_of_range ((l : Int) - 2097152) (by omega) (by omega),
    to_int32_of_range ((h : Int) - 2097152) (by omega) (by omega),
    to_uint32_sub_of_le l h (le_of_lt hlh) (by omega), hmod]
  simp only [fdiv, if_neg hd]
  have hd2 : (h : ℚ) - (l : ℚ) ≠ 0 := by rw [← hcast]; exact hd
  have hg : ((((h : Int) - 2097152 : Int) : ℚ) * s.lsb - (((l : Int) - 2097152 : Int) : ℚ) * s.lsb)
      / ((h - l : Nat) : ℚ) = s.lsb := by
    rw [hcast]
    push_cast
    field_simp
    ring
  rw [hg]
  congr 2
  push_cast
  ring

/-- Once the conversion-ready poll returns `0`, `ltc2422_adc_read` returns `0` and writes the
two codes, the first word going to the channel named by its bit `0x40` of byte 2. -/
theorem ltc2422_adc_read_of_poll (s : Ltc2422State) (T : Fin 65536) (bus : Ltc2422Bus)
    (h : ltc2422_EOC_timeout T bus.miso = 0) :
    ltc2422_adc_read s T bus
      = if bus.rx_first 2 &&& 0x40 = 0 then
          (0, some (int32_of_bytes ![bus.rx_first 0, bus.rx_first 1, bus.rx_first 2, 0],
            int32_of_bytes bus.rx_second))
        else
          (0, some (int32_of_bytes bus.rx_second,
            int32_of_bytes ![bus.rx_first 0, bus.rx_first 1, bus.rx_first 2, 0])) := by
  unfold ltc2422_adc_read
  simp [h]

/-- When the conversion-ready poll returns a non-zero value, `ltc2422_adc_read` returns it
and writes nothing. -/
theorem ltc2422_adc_read_of_poll_ne (s : Ltc2422State) (T : Fin 65536) (bus : Ltc2422Bus)
    (h : ltc2422_EOC_timeout T bus.miso ≠ 0) :
    ltc2422_adc_read s T bus = (ltc2422_EOC_timeout T bus.miso, none) := by
  unfold ltc2422_adc_read
  simp [h]

/-- The run of `dc934a_calibration` in which both ADC reads return `0`, both stores through
the contents of `low_code_b` and `high_code_b` have an outcome and both calls of
`cal_one_channel` have a value. -/
theorem dc934a_calibration_eval (s7 : Ltc2607State) (s2 : Ltc2422State) (T : Fin 65536)
    (bl bh : Ltc2422Bus) (lb hb : Nat)
    (store : Nat → Int → Ltc2607State → Option Ltc2607State)
    (la ha xl xh : Int) (s7a s7b : Ltc2607State) (oa ga ob gb : ℚ)
    (h1 : ltc2422_adc_read s2 T bl = (0, some (la, xl)))
    (hs1 : store lb xl s7 = some s7a)
    (h2 : ltc2422_adc_read s2 T bh = (0, some (ha, xh)))
    (hs2 : store hb xh s7a = some s7b)
    (hA : cal_one_channel s2 (to_uint32 la) (to_uint32 ha) = some (oa, ga))
    (hB : cal_one_channel s2 lb hb = some (ob, gb)) :
    dc934a_calibration s7 s2 T bl bh lb hb store
      = some (LTC2607_ERR_OK,
          { s7b with dac_a_lsb := oa, dac_a_offset := ga, dac_b_lsb := ob, dac_b_offset := gb,
                     same_cal := false }) := by
  unfold dc934a_calibration
  simp [h1, hs1, h2, hs2, hA, hB, ltc2607_write_and_update_dac, ltc2607_write_dac]

/-- The run of `dc934a_calibration` in which the first ADC read returns a non-zero value:
nothing has been stored. -/
theorem dc934a_calibration_first_read_error (s7 : Ltc2607State) (s2 : Ltc2422State)
    (T : Fin 65536) (bl bh : Ltc2422Bus) (lb hb : Nat)
    (store : Nat → Int → Ltc2607State → Option Ltc2607State)
    (h : (ltc2422_adc_read s2 T bl).1 ≠ 0) :
    dc934a_calibration s7 s2 T bl bh lb hb store = some (DC934A_ERR_ADC_READ, s7) := by
  unfold dc934a_calibration
  simp [h, ltc2607_write_and_update_dac, ltc2607_write_dac]

/-- The run of `dc934a_calibration` in which the first ADC read returns `0` and the second a
non-zero value: the LTC2607 state is the one that the store of the first read has left. -/
theorem dc934a_calibration_second_read_error (s7 : Ltc2607State) (s2 : Ltc2422State)
    (T : Fin 65536) (bl bh : Ltc2422Bus) (lb hb : Nat)
    (store : Nat → Int → Ltc2607State → Option Ltc2607State)
    (la xl : Int) (s7a : Ltc2607State)
    (h1 : ltc2422_adc_read s2 T bl = (0, some (la, xl)))
    (hs1 : store lb xl s7 = some s7a)
    (h2 : (ltc2422_adc_read s2 T bh).1 ≠ 0) :
    dc934a_calibration s7 s2 T bl bh lb hb store = some (DC934A_ERR_ADC_READ, s7a) := by
  unfold dc934a_calibration
  simp [h1, hs1, h2, ltc2607_write_and_update_dac, ltc2607_write_dac]

/-- The run of `dc934a_calibration` in which both ADC reads return `0` and the channel-A
call of `cal_one_channel` divides by zero. -/
theorem dc934a_calibration_div_zero (s7 : Ltc2607State) (s2 : Ltc2422State) (T : Fin 65536)
    (bl bh : Ltc2422Bus) (lb hb : Nat)
    (store : Nat → Int → Ltc2607State → Option Ltc2607State)
    (la ha xl xh : Int) (s7a s7b : Ltc2607State)
    (h1 : ltc2422_adc_read s2 T bl = (0, some (la, xl)))
    (hs1 : store lb xl s7 = some s7a)
    (h2 : ltc2422_adc_read s2 T bh = (0, some (ha, xh)))
    (hs2 : store hb xh s7a = some s7b)
    (hA : cal_one_channel s2 (to_uint32 la) (to_uint32 ha) = none) :
    dc934a_calibration s7 s2 T bl bh lb hb store = none := by
  unfold dc934a_calibration
  simp [h1, hs1, h2, hs2, hA, ltc2607_write_and_update_dac, ltc2607_write_dac]

/-- With the ready line never low during 2 polls, `ltc2422_adc_read` returns `0` and hands
the code `0x200001` of the first word to channel A (its bit `0x40` of byte 2 being clear). -/
theorem ltc2422_adc_read_never_low_01 (s : Ltc2422State) :
    ltc2422_adc_read s 2 (dc934a_bus_never_low 0x01 0 0x20) = (0, some (2097153, 6291456)) := by
  rfl

/-- The same with the code `0x200031` in the first word. -/
theorem ltc2422_adc_read_never_low_31 (s : Ltc2422State) :
    ltc2422_adc_read s 2 (dc934a_bus_never_low 0x31 0 0x20) = (0, some (2097201, 6291456)) := by
  rfl

/-- An ADC read that returns a non-zero value on the board whose ready line is always low. -/
theorem ltc2422_adc_read_low (s : Ltc2422State) :
    (ltc2422_adc_read s 1000 dc934a_bus_low).1 = -1 := by
  rfl

/-- In the memory `dc934a_store_at`, a store at an address past the record leaves it. -/
theorem dc934a_store_at_outside (ltc2607_address pointer : Nat) (value : Int)
    (state : Ltc2607State) (h : ltc2607_address + 18 ≤ pointer) :
    dc934a_store_at ltc2607_address pointer value state = some state := by
  unfold dc934a_store_at
  rw [if_neg (by omega), if_neg (by omega), if_neg (by omega), if_neg (by omega),
    if_pos (Or.inr h)]

/-- The `float` with the bits `0x00600000` (exponent field `0`, fraction `0x600000`) is
`0x600000 / 2^149 = 3 / 2^128`. -/
theorem float_of_bits_600000 : float_of_bits 0x600000 = some (3 / 2 ^ 128) := by
  norm_num [float_of_bits]

/-- In the memory `dc934a_store_at`, the store of the code `0x600000` at the address of the
record makes `dac_a_lsb` the `float` with these bits. -/
theorem dc934a_store_at_dac_a_lsb (ltc2607_address : Nat) (state : Ltc2607State) :
    dc934a_store_at ltc2607_address ltc2607_address 6291456 state
      = some { state with dac_a_lsb := 3 / 2 ^ 128 } := by
  have hb : to_uint32 6291456 = 0x600000 := by decide
  unfold dc934a_store_at
  rw [if_pos rfl, hb, float_of_bits_600000]
  rfl

/-! ## DC934A: theorems -/

/-- C16. A run of `dc934a_calibration` that returns `LTC2607_ERR_OK`: the ADC `lsb` is `0.1`,
channel A reads the code `0x200001` (`v_low = 0.1`) at the low point and `0x200031`
(`v_high = 4.9`) at the high point, and the two stores through the contents of `low_code_b`
and `high_code_b` land outside the record.  The call stores `dac_a_lsb = -209715.2` and
`dac_a_offset = 0.1`, not the gain `(4.9 - 0.1)/(0xFF00 - 0x00FF)` and the offset
`0.1 - gain * 0x00FF` of the two-point fit. -/
theorem dc934a_calibration_not_two_point_fit :
    ltc2422_code_to_volts ⟨1/10⟩ 0x200001 = 1/10 ∧
    ltc2422_code_to_volts ⟨1/10⟩ 0x200031 = 49/10 ∧
    ∃ st2 : Ltc2607State,
      dc934a_calibration ltc2607_initial_state ⟨1/10⟩ 2
          (dc934a_bus_never_low 0x01 0 0x20) (dc934a_bus_never_low 0x31 0 0x20)
          0x200001 0x200031 (dc934a_store_at 0x0200) = some (LTC2607_ERR_OK, st2) ∧
      st2.dac_a_lsb = -1048576/5 ∧ st2.dac_a_offset = 1/10 ∧
      st2.dac_a_lsb ≠ ((49/10 : ℚ) - 1/10) / (0xFF00 - 0x00FF) ∧
      st2.dac_a_offset ≠ (1/10 : ℚ) - (((49/10 : ℚ) - 1/10) / (0xFF00 - 0x00FF)) * 0x00FF := by
  have hA : cal_one_channel ⟨1/10⟩ (to_uint32 2097153) (to_uint32 2097201)
      = some (-2097152 * (1/10 : ℚ), (1/10 : ℚ)) :=
    cal_one_channel_increasing ⟨1/10⟩ 2097153 2097201 (by decide) (by decide)
  have hB : cal_one_channel ⟨1/10⟩ 0x200001 0x200031
      = some (-2097152 * (1/10 : ℚ), (1/10 : ℚ)) :=
    cal_one_channel_increasing ⟨1/10⟩ 2097153 2097201 (by decide) (by decide)
  refine ⟨by norm_num [ltc2422_code_to_volts, to_int32],
    by norm_num [ltc2422_code_to_volts, to_int32], _,
    dc934a_calibration_eval _ _ _ _ _ _ _ _ _ _ _ _ _ _ _ _ _ _
      (ltc2422_adc_read_never_low_01 _) (dc934a_store_at_outside _ _ _ _ (by decide))
      (ltc2422_adc_read_never_low_31 _) (dc934a_store_at_outside _ _ _ _ (by decide))
      hA hB, ?_, ?_, ?_, ?_⟩
  · norm_num
  · rfl
  · norm_num
  · norm_num

/-- C17. A run of `dc934a_calibration` whose second ADC read fails: the first read returns
`0` and hands the code `0x600000` to `*code_b`; `low_code_b` holds `0x0200`, the address of
the record, and the store makes `dac_a_lsb` the `float` with the bits `0x00600000`; the second
read returns `-1`.  The call returns `DC934A_ERR_ADC_READ` with `dac_a_lsb = 3 / 2^128`, not
with the state it was given, in which `dac_a_lsb` is `LTC2607_TYPICAL_lsb`. -/
theorem dc934a_calibration_failed_read_changes_state :
    ltc2422_adc_read ⟨1/10⟩ 2 (dc934a_bus_never_low 0x01 0 0x20)
      = (0, some (0x200001, 0x600000)) ∧
    (ltc2422_adc_read ⟨1/10⟩ 2 dc934a_bus_low).1 = -1 ∧
    dc934a_store_at 0x0200 0x0200 0x600000 ltc2607_initial_state
      = some dc934a_overwritten_state ∧
    dc934a_calibration ltc2607_initial_state ⟨1/10⟩ 2
        (dc934a_bus_never_low 0x01 0 0x20) dc934a_bus_low 0x0200 0 (dc934a_store_at 0x0200)
      = some (DC934A_ERR_ADC_READ, dc934a_overwritten_state) ∧
    ltc2607_initial_state.dac_a_lsb = LTC2607_TYPICAL_lsb ∧
    dc934a_overwritten_state.dac_a_lsb = 3 / 2 ^ 128 ∧
    dc934a_overwritten_state.dac_a_lsb ≠ ltc2607_initial_state.dac_a_lsb := by
  refine ⟨rfl, rfl, dc934a_store_at_dac_a_lsb _ _, ?_, rfl, rfl, ?_⟩
  · exact dc934a_calibration_second_read_error _ _ _ _ _ _ _ _ _ _ _
      (ltc2422_adc_read_never_low_01 _) (dc934a_store_at_dac_a_lsb _ _)
      (by rw [show (ltc2422_adc_read ⟨1/10⟩ 2 dc934a_bus_low).1 = -1 from rfl]; decide)
  · rw [show dc934a_overwritten_state.dac_a_lsb = 3 / 2 ^ 128 from rfl,
      show ltc2607_initial_state.dac_a_lsb = LTC2607_TYPICAL_lsb from rfl]
    norm_num [LTC2607_TYPICAL_lsb]

/-- With a non-zero divisor `high_code - low_code`, `cal_one_channel` has a value. -/
theorem cal_one_channel_of_ne (s : Ltc2422State) (l h : Nat)
    (hd : to_uint32 ((h : Int) - (l : Int)) ≠ 0) :
    ∃ offset lsb : ℚ, cal_one_channel s l h = some (offset, lsb) := by
  have hq : ((to_uint32 ((h : Int) - (l : Int)) : Nat) : ℚ) ≠ 0 := by exact_mod_cast hd
  unfold cal_one_channel
  simp only [fdiv, if_neg hq]
  exact ⟨_, _, rfl⟩

/-- A result of `dc934a_calibration` is `LTC2607_ERR_OK`, or `DC934A_ERR_ADC_READ` after an
ADC read that returned a non-zero value. -/
theorem dc934a_calibration_results (s7 : Ltc2607State) (s2 : Ltc2422State)
    (T : Fin 65536) (bl bh : Ltc2422Bus) (lb hb : Nat)
    (store : Nat → Int → Ltc2607State → Option Ltc2607State)
    (r : Int) (st : Ltc2607State)
    (h : dc934a_calibration s7 s2 T bl bh lb hb store = some (r, st)) :
    r = LTC2607_ERR_OK ∨
    (r = DC934A_ERR_ADC_READ ∧
      ((ltc2422_adc_read s2 T bl).1 ≠ 0 ∨ (ltc2422_adc_read s2 T bh).1 ≠ 0)) := by
  unfold dc934a_calibration at h
  simp only [ltc2607_write_and_update_dac, ltc2607_write_dac, ne_eq, not_true_eq_false,
    if_false] at h
  split at h
  · rename_i hr
    simp only [Option.some.injEq, Prod.mk.injEq] at h
    exact Or.inr ⟨h.1.symm, Or.inl hr⟩
  · split at h
    · exact absurd h (by simp)
    · split at h
      · exact absurd h (by simp)
      · split at h
        · rename_i hr
          simp only [Option.some.injEq, Prod.mk.injEq] at h
          exact Or.inr ⟨h.1.symm, Or.inr hr⟩
        · split at h
          · exact absurd h (by simp)
          · split at h
            · exact absurd h (by simp)
            · split at h
              · exact absurd h (by simp)
              · split at h
                · exact absurd h (by simp)
                · simp only [Option.some.injEq, Prod.mk.injEq] at h
                  exact Or.inl h.1.symm

/-- C18, counterexample. A run of `dc934a_calibration` in which channel A reads the same ADC
code `0x200001` at both points, so that `high_code - low_code` is zero in `cal_one_channel`:
the function does not return an error, it reaches `cal_one_channel`, which divides by zero
(`none`). -/
theorem dc934a_calibration_divides_by_zero :
    to_uint32 ((2097153 : Int) - 2097153) = 0 ∧
    cal_one_channel ⟨1/10⟩ 0x200001 0x200001 = none ∧
    dc934a_calibration ltc2607_initial_state ⟨1/10⟩ 2
        (dc934a_bus_never_low 0x01 0 0x20) (dc934a_bus_never_low 0x01 0 0x20)
        0x200001 0x200031 (dc934a_store_at 0x0200) = none ∧
    ∀ e : Int, dc934a_calibration ltc2607_initial_state ⟨1/10⟩ 2
        (dc934a_bus_never_low 0x01 0 0x20) (dc934a_bus_never_low 0x01 0 0x20)
        0x200001 0x200031 (dc934a_store_at 0x0200) ≠ some (e, ltc2607_initial_state) := by
  have hnone := dc934a_calibration_div_zero ltc2607_initial_state ⟨1/10⟩ 2
      (dc934a_bus_never_low 0x01 0 0x20) (dc934a_bus_never_low 0x01 0 0x20)
      0x200001 0x200031 (dc934a_store_at 0x0200) _ _ _ _ _ _
      (ltc2422_adc_read_never_low_01 _) (dc934a_store_at_outside _ _ _ _ (by decide))
      (ltc2422_adc_read_never_low_01 _) (dc934a_store_at_outside _ _ _ _ (by decide))
      (cal_one_channel_same_code _ _)
  refine ⟨by decide, cal_one_channel_same_code _ _, hnone, ?_⟩
  intro e
  rw [hnone]
  exact fun hcon => Option.noConfusion hcon

/-- C18, amended. `dc934a_calibration` has no check of the divisor.  Its two calibration
points are the constants `0x00FF` and `0xFF00`, which differ.  When both ADC reads return `0`,
both stores through the contents of `low_code_b` and `high_code_b` have an outcome and the
divisor `high_code - low_code` of `cal_one_channel` is not zero on either channel, no division
by zero takes place and the run returns `LTC2607_ERR_OK`.  And on every board, from every
state, a value that the call returns is `LTC2607_ERR_OK`, or is `DC934A_ERR_ADC_READ` after an
ADC read that returned a non-zero value: no result reports a zero divisor. -/
theorem dc934a_calibration_nonzero_divisor (s7 : Ltc2607State) (s2 : Ltc2422State)
    (T : Fin 65536) (bl bh : Ltc2422Bus) (lb hb : Nat)
    (store : Nat → Int → Ltc2607State → Option Ltc2607State)
    (la ha xl xh : Int) (s7a s7b : Ltc2607State)
    (h1 : ltc2422_adc_read s2 T bl = (0, some (la, xl)))
    (hs1 : store lb xl s7 = some s7a)
    (h2 : ltc2422_adc_read s2 T bh = (0, some (ha, xh)))
    (hs2 : store hb xh s7a = some s7b)
    (hA : to_uint32 (((to_uint32 ha : Nat) : Int) - ((to_uint32 la : Nat) : Int)) ≠ 0)
    (hB : to_uint32 ((hb : Int) - (lb : Int)) ≠ 0) :
    DC934A_CAL_LOW_DAC_CODE ≠ DC934A_CAL_HIGH_DAC_CODE ∧
    (∃ st2 : Ltc2607State,
      dc934a_calibration s7 s2 T bl bh lb hb store = some (LTC2607_ERR_OK, st2)) ∧
    (∀ (t7 : Ltc2607State) (t2 : Ltc2422State) (U : Fin 65536) (cl ch : Ltc2422Bus)
        (mb nb : Nat) (memory : Nat → Int → Ltc2607State → Option Ltc2607State)
        (r : Int) (st : Ltc2607State),
      dc934a_calibration t7 t2 U cl ch mb nb memory = some (r, st) →
      r = LTC2607_ERR_OK ∨
      (r = DC934A_ERR_ADC_READ ∧
        ((ltc2422_adc_read t2 U cl).1 ≠ 0 ∨ (ltc2422_adc_read t2 U ch).1 ≠ 0))) := by
  obtain ⟨oa, ga, hcA⟩ := cal_one_channel_of_ne s2 _ _ hA
  obtain ⟨ob, gb, hcB⟩ := cal_one_channel_of_ne s2 _ _ hB
  exact ⟨by decide,
    ⟨_, dc934a_calibration_eval s7 s2 T bl bh lb hb store la ha xl xh s7a s7b oa ga ob gb
      h1 hs1 h2 hs2 hcA hcB⟩,
    fun t7 t2 U cl ch mb nb memory r st h =>
      dc934a_calibration_results t7 t2 U cl ch mb nb memory r st h⟩

/-- Witness of C18: both channels read `0x200001` at the low and `0x200031` at the high
point, the two stores land outside the record. -/
theorem dc934a_calibration_nonzero_divisor_witness :
    ∃ st2 : Ltc2607State,
      dc934a_calibration ltc2607_initial_state ⟨1/10⟩ 2
          (dc934a_bus_never_low 0x01 0 0x20) (dc934a_bus_never_low 0x31 0 0x20)
          0x200001 0x200031 (dc934a_store_at 0x0200) = some (LTC2607_ERR_OK, st2) :=
  (dc934a_calibration_nonzero_divisor ltc2607_initial_state ⟨1/10⟩ 2
    (dc934a_bus_never_low 0x01 0 0x20) (dc934a_bus_never_low 0x31 0 0x20)
    0x200001 0x200031 (dc934a_store_at 0x0200) 2097153 2097201 6291456 6291456
    ltc2607_initial_state ltc2607_initial_state
    (ltc2422_adc_read_never_low_01 _) (dc934a_store_at_outside _ _ _ _ (by decide))
    (ltc2422_adc_read_never_low_31 _) (dc934a_store_at_outside _ _ _ _ (by decide))
    (by decide) (by decide)).2.1

/-- A run of `dc934a_calibration` that returns `LTC2607_ERR_OK` has cleared `same_cal`. -/
theorem dc934a_calibration_ok_same_cal (s7 : Ltc2607State) (s2 : Ltc2422State)
    (T : Fin 65536) (bl bh : Ltc2422Bus) (lb hb : Nat)
    (store : Nat → Int → Ltc2607State → Option Ltc2607State) (st2 : Ltc2607State)
    (h : dc934a_calibration s7 s2 T bl bh lb hb store = some (LTC2607_ERR_OK, st2)) :
    st2.same_cal = false := by
  have hne : DC934A_ERR_ADC_READ ≠ LTC2607_ERR_OK := by decide
  unfold dc934a_calibration at h
  simp only [ltc2607_write_and_update_dac, ltc2607_write_dac, ne_eq, not_true_eq_false,
    if_false] at h
  split at h
  · simp only [Option.some.injEq, Prod.mk.injEq] at h
    exact absurd h.1 hne
  · split at h
    · exact absurd h (by simp)
    · split at h
      · exact absurd h (by simp)
      · split at h
        · simp only [Option.some.injEq, Prod.mk.injEq] at h
          exact absurd h.1 hne
        · split at h
          · exact absurd h (by simp)
          · split at h
            · exact absurd h (by simp)
            · split at h
              · exact absurd h (by simp)
              · split at h
                · exact absurd h (by simp)
                · simp only [Option.some.injEq, Prod.mk.injEq, true_and] at h
                  rw [← h]

/-- C19. Every run of `dc934a_calibration` that returns `LTC2607_ERR_OK` leaves `same_cal`
false, whatever it was before and whatever the two stored pairs are, so that a following
`ltc2607_code_to_volts` or `ltc2607_volts_to_code` with `LTC2607_BOTH` returns
`LTC2607_ERR_NOT_SAME_CAL` and leaves its output as it was. -/
theorem dc934a_calibration_clears_same_cal (s7 : Ltc2607State) (s2 : Ltc2422State)
    (T : Fin 65536) (bl bh : Ltc2422Bus) (lb hb : Nat)
    (store : Nat → Int → Ltc2607State → Option Ltc2607State) (st2 : Ltc2607State)
    (h : dc934a_calibration s7 s2 T bl bh lb hb store = some (LTC2607_ERR_OK, st2)) :
    st2.same_cal = false ∧
    (∀ (code : Nat) (volts : ℚ),
      ltc2607_code_to_volts st2 LTC2607_BOTH code volts = (LTC2607_ERR_NOT_SAME_CAL, volts)) ∧
    (∀ (v : ℚ) (old : Nat),
      ltc2607_volts_to_code st2 LTC2607_BOTH v old = some (LTC2607_ERR_NOT_SAME_CAL, old)) := by
  have hs := dc934a_calibration_ok_same_cal s7 s2 T bl bh lb hb store st2 h
  refine ⟨hs, ?_, ?_⟩
  · intro code volts
    simp [ltc2607_code_to_volts, hs]
  · intro v old
    simp [ltc2607_volts_to_code, hs]

/-- Witness of C19: the run from the initial state (`same_cal` true) in which both channels
read `0x200001` and `0x200031`, so that both stored pairs are equal. -/
theorem dc934a_calibration_clears_same_cal_witness :
    ltc2607_initial_state.same_cal = true ∧
    ∃ st2 : Ltc2607State,
      dc934a_calibration ltc2607_initial_state ⟨1/10⟩ 2
          (dc934a_bus_never_low 0x01 0 0x20) (dc934a_bus_never_low 0x31 0 0x20)
          0x200001 0x200031 (dc934a_store_at 0x0200) = some (LTC2607_ERR_OK, st2) ∧
      (st2.dac_a_lsb, st2.dac_a_offset) = (st2.dac_b_lsb, st2.dac_b_offset) ∧
      st2.same_cal = false ∧
      ltc2607_code_to_volts st2 LTC2607_BOTH 8 3 = (LTC2607_ERR_NOT_SAME_CAL, 3) ∧
      ltc2607_volts_to_code st2 LTC2607_BOTH (5/2) 7 = some (LTC2607_ERR_NOT_SAME_CAL, 7) :=
  have hA : cal_one_channel ⟨1/10⟩ (to_uint32 2097153) (to_uint32 2097201)
      = some (-2097152 * (1/10 : ℚ), (1/10 : ℚ)) :=
    cal_one_channel_increasing ⟨1/10⟩ 2097153 2097201 (by decide) (by decide)
  have hB : cal_one_channel ⟨1/10⟩ 0x200001 0x200031
      = some (-2097152 * (1/10 : ℚ), (1/10 : ℚ)) :=
    cal_one_channel_increasing ⟨1/10⟩ 2097153 2097201 (by decide) (by decide)
  have hrun := dc934a_calibration_eval ltc2607_initial_state ⟨1/10⟩ 2
    (dc934a_bus_never_low 0x01 0 0x20) (dc934a_bus_never_low 0x31 0 0x20)
    0x200001 0x200031 (dc934a_store_at 0x0200) _ _ _ _ _ _ _ _ _ _
    (ltc2422_adc_read_never_low_01 _) (dc934a_store_at_outside _ _ _ _ (by decide))
    (ltc2422_adc_read_never_low_31 _) (dc934a_store_at_outside _ _ _ _ (by decide)) hA hB
  ⟨rfl, _, hrun, rfl,
    (dc934a_calibration_clears_same_cal _ _ _ _ _ _ _ _ _ hrun).1,
    (dc934a_calibration_clears_same_cal _ _ _ _ _ _ _ _ _ hrun).2.1 8 3,
    (dc934a_calibration_clears_same_cal _ _ _ _ _ _ _ _ _ hrun).2.2 (5/2) 7⟩

/-- C20. A state reached from `ltc2607_init` by one run of `dc934a_calibration` that returns
`LTC2607_ERR_OK`, with a positive ADC `lsb` (`0.1`) and, on each channel, a strictly higher
ADC code at the high point (`0x200031`) than at the low point (`0x200001`): the stored
`dac_a_lsb` and `dac_b_lsb` are `-209715.2`, not positive. -/
theorem dc934a_calibration_negative_lsb :
    0 < ltc2607_initial_state.dac_a_lsb ∧ 0 < ltc2607_initial_state.dac_b_lsb ∧
    (0 : ℚ) < (⟨1/10⟩ : Ltc2422State).lsb ∧ (0x200001 : Nat) < 0x200031 ∧
    ∃ st2 : Ltc2607State,
      dc934a_calibration ltc2607_initial_state ⟨1/10⟩ 2
          (dc934a_bus_never_low 0x01 0 0x20) (dc934a_bus_never_low 0x31 0 0x20)
          0x200001 0x200031 (dc934a_store_at 0x0200) = some (LTC2607_ERR_OK, st2) ∧
      st2.dac_a_lsb = -1048576/5 ∧ st2.dac_b_lsb = -1048576/5 ∧
      st2.dac_a_lsb < 0 ∧ st2.dac_b_lsb < 0 := by
  have hA : cal_one_channel ⟨1/10⟩ (to_uint32 2097153) (to_uint32 2097201)
      = some (-2097152 * (1/10 : ℚ), (1/10 : ℚ)) :=
    cal_one_channel_increasing ⟨1/10⟩ 2097153 2097201 (by decide) (by decide)
  have hB : cal_one_channel ⟨1/10⟩ 0x200001 0x200031
      = some (-2097152 * (1/10 : ℚ), (1/10 : ℚ)) :=
    cal_one_channel_increasing ⟨1/10⟩ 2097153 2097201 (by decide) (by decide)
  refine ⟨?_, ?_, by norm_num, by decide, _,
    dc934a_calibration_eval _ _ _ _ _ _ _ _ _ _ _ _ _ _ _ _ _ _
      (ltc2422_adc_read_never_low_01 _) (dc934a_store_at_outside _ _ _ _ (by decide))
      (ltc2422_adc_read_never_low_31 _) (dc934a_store_at_outside _ _ _ _ (by decide))
      hA hB, ?_, ?_, ?_, ?_⟩
  · norm_num [ltc2607_initial_state, ltc2607_init, ltc2607_clear_calibration,
      ltc2607_set_i2c_address, LTC2607_TYPICAL_lsb]
  · norm_num [ltc2607_initial_state, ltc2607_init, ltc2607_clear_calibration,
      ltc2607_set_i2c_address, LTC2607_TYPICAL_lsb]
  · norm_num
  · norm_num
  · norm_num
  · norm_num

/-! ## LTC2422: the poll and the read -/

/-- The poll loop returns `-1` when one of its `remaining` samples is `0`, and `0` when none
is. -/
theorem ltc2422_EOC_timeout_loop_eq (miso : Nat → Nat) (remaining t : Nat) :
    ((∃ n, t ≤ n ∧ n < t + remaining ∧ miso n = 0) →
      ltc2422_EOC_timeout_loop miso remaining t = -1) ∧
    ((¬ ∃ n, t ≤ n ∧ n < t + remaining ∧ miso n = 0) →
      ltc2422_EOC_timeout_loop miso remaining t = 0) := by
  induction remaining generalizing t with
  | zero =>
    refine ⟨?_, fun _ => rfl⟩
    rintro ⟨n, h1, h2, -⟩
    omega
  | succ k ih =>
    unfold ltc2422_EOC_timeout_loop
    by_cases h0 : miso t = 0
    · rw [if_pos h0]
      exact ⟨fun _ => rfl, fun h => absurd ⟨t, le_refl t, by omega, h0⟩ h⟩
    · rw [if_neg h0]
      constructor
      · rintro ⟨n, h1, h3, h4⟩
        have hn : n ≠ t := fun e => h0 (e ▸ h4)
        exact (ih (t + 1)).1 ⟨n, by omega, by omega, h4⟩
      · intro h
        apply (ih (t + 1)).2
        rintro ⟨n, h1, h3, h4⟩
        exact h ⟨n, by omega, by omega, h4⟩

/-- `ltc2422_EOC_timeout` returns `-1` when the ready line is read low at one of the
`MISO_TIMEOUT` polls, and `0` when it is read low at none of them. -/
theorem ltc2422_EOC_timeout_eq (T : Fin 65536) (miso : Nat → Nat) :
    ((∃ n, n < (T : Nat) ∧ miso n = 0) → ltc2422_EOC_timeout T miso = -1) ∧
    ((∀ n, n < (T : Nat) → miso n ≠ 0) → ltc2422_EOC_timeout T miso = 0) := by
  unfold ltc2422_EOC_timeout
  constructor
  · rintro ⟨n, h1, h3⟩
    exact (ltc2422_EOC_timeout_loop_eq miso T 0).1 ⟨n, Nat.zero_le n, by omega, h3⟩
  · intro h
    apply (ltc2422_EOC_timeout_loop_eq miso T 0).2
    rintro ⟨n, -, h3, h4⟩
    exact h n (by omega) h4

/-- The return value of `ltc2422_adc_read` is the one of its poll. -/
theorem ltc2422_adc_read_result (s : Ltc2422State) (T : Fin 65536) (bus : Ltc2422Bus) :
    (ltc2422_adc_read s T bus).1 = ltc2422_EOC_timeout T bus.miso := by
  by_cases h : ltc2422_EOC_timeout T bus.miso = 0
  · rw [ltc2422_adc_read_of_poll s T bus h, h]
    by_cases hb : bus.rx_first 2 &&& 0x40 = 0
    · rw [if_pos hb]
    · rw [if_neg hb]
  · rw [ltc2422_adc_read_of_poll_ne s T bus h]

/-- C21. For the two words delivered by the transfers of an `ltc2422_adc_read` that returns
`0`: when bit `0x40` of byte 2 of the first word is clear, `code_a` receives the code of the
first word and `code_b` the code of the second; when it is set, `code_b` receives the code of
the first word and `code_a` the code of the second.  Both outputs are written. -/
theorem ltc2422_adc_read_channel_assignment (s : Ltc2422State) (T : Fin 65536)
    (bus : Ltc2422Bus) (h : (ltc2422_adc_read s T bus).1 = 0) :
    (bus.rx_first 2 &&& 0x40 = 0 →
      (ltc2422_adc_read s T bus).2
        = some (int32_of_bytes ![bus.rx_first 0, bus.rx_first 1, bus.rx_first 2, 0],
            int32_of_bytes bus.rx_second)) ∧
    (bus.rx_first 2 &&& 0x40 ≠ 0 →
      (ltc2422_adc_read s T bus).2
        = some (int32_of_bytes bus.rx_second,
            int32_of_bytes ![bus.rx_first 0, bus.rx_first 1, bus.rx_first 2, 0])) ∧
    (ltc2422_adc_read s T bus).2 ≠ none := by
  have hp : ltc2422_EOC_timeout T bus.miso = 0 := by
    rw [← ltc2422_adc_read_result s T bus]; exact h
  rw [ltc2422_adc_read_of_poll s T bus hp]
  by_cases hb : bus.rx_first 2 &&& 0x40 = 0
  · rw [if_pos hb]
    exact ⟨fun _ => rfl, fun hn => absurd hb hn, fun hcon => Option.noConfusion hcon⟩
  · rw [if_neg hb]
    exact ⟨fun hy => absurd hy hb, fun _ => rfl, fun hcon => Option.noConfusion hcon⟩

/-- Witness of C21: the first word `0x01, 0x00, 0x20` (bit `0x40` clear) goes to channel A,
the second word `0, 0, 0x60, 0` to channel B. -/
theorem ltc2422_adc_read_channel_assignment_witness :
    (ltc2422_adc_read ⟨1/10⟩ 2 (dc934a_bus_never_low 0x01 0 0x20)).2
      = some (int32_of_bytes ![(dc934a_bus_never_low 0x01 0 0x20).rx_first 0,
                (dc934a_bus_never_low 0x01 0 0x20).rx_first 1,
                (dc934a_bus_never_low 0x01 0 0x20).rx_first 2, 0],
            int32_of_bytes (dc934a_bus_never_low 0x01 0 0x20).rx_second) :=
  (ltc2422_adc_read_channel_assignment ⟨1/10⟩ 2 (dc934a_bus_never_low 0x01 0 0x20) rfl).1 rfl

/-- C22. Two runs of `ltc2422_adc_read`.  On a board whose ready line is low at the first
poll (the conversion is ready), it returns `-1` and writes neither code.  On a board whose
ready line is never low during the `MISO_TIMEOUT = 2` polls (the conversion never becomes
ready), it returns `0` and writes both codes. -/
theorem ltc2422_adc_read_timeout_inverted :
    dc934a_bus_low.miso 0 = 0 ∧
    ltc2422_adc_read ⟨1/10⟩ 1000 dc934a_bus_low = (-1, none) ∧
    (∀ n : Nat, (dc934a_bus_never_low 0x01 0 0x20).miso n ≠ 0) ∧
    ltc2422_adc_read ⟨1/10⟩ 2 (dc934a_bus_never_low 0x01 0 0x20)
      = (0, some (2097153, 6291456)) :=
  ⟨rfl, rfl, fun _ => Nat.one_ne_zero, rfl⟩

/-- The poll with its `uint16_t` counter, started at `timer_count = samples = t` with
`t + k = MISO_TIMEOUT ≤ 65535`: `k + 1` tests of the loop condition (or more) give its
result, which is the one of `ltc2422_EOC_timeout_loop`, after at most `MISO_TIMEOUT` samples
in all. -/
theorem ltc2422_EOC_timeout_run_eq (T : Nat) (hT : T ≤ 65535) (miso : Nat → Nat) (k : Nat) :
    ∀ t : Nat, t + k = T →
      ∃ n : Nat, n ≤ T ∧ ∀ fuel : Nat, k + 1 ≤ fuel →
        ltc2422_EOC_timeout_run T miso fuel t t
          = some (ltc2422_EOC_timeout_loop miso k t, n) := by
  induction k with
  | zero =>
    intro t ht
    refine ⟨t, by omega, ?_⟩
    intro fuel hf
    obtain ⟨f, rfl⟩ : ∃ f, fuel = f + 1 := ⟨fuel - 1, by omega⟩
    unfold ltc2422_EOC_timeout_run ltc2422_EOC_timeout_loop
    rw [if_neg (by omega)]
  | succ k ih =>
    intro t ht
    by_cases h0 : miso t = 0
    · refine ⟨t + 1, by omega, ?_⟩
      intro fuel hf
      obtain ⟨f, rfl⟩ : ∃ f, fuel = f + 1 := ⟨fuel - 1, by omega⟩
      unfold ltc2422_EOC_timeout_run ltc2422_EOC_timeout_loop
      rw [if_pos (by omega), if_pos h0, if_pos h0]
    · obtain ⟨n, hn, hrun⟩ := ih (t + 1) (by omega)
      refine ⟨n, hn, ?_⟩
      intro fuel hf
      obtain ⟨f, rfl⟩ : ∃ f, fuel = f + 1 := ⟨fuel - 1, by omega⟩
      unfold ltc2422_EOC_timeout_run ltc2422_EOC_timeout_loop
      rw [if_pos (by omega), if_neg h0, if_neg h0]
      have hmod : (t + 1) % 65536 = t + 1 := Nat.mod_eq_of_lt (by omega)
      rw [hmod]
      exact hrun f (by omega)

/-- With `MISO_TIMEOUT = 65536`, beyond the range of the counter, and a ready line that is
never low, no number of tests of the loop condition ends the poll. -/
theorem ltc2422_EOC_timeout_run_65536 (fuel : Nat) :
    ∀ t n : Nat, t < 65536 → ltc2422_EOC_timeout_run 65536 (fun _ => 1) fuel t n = none := by
  induction fuel with
  | zero => intro t n _; rfl
  | succ f ih =>
    intro t n ht
    unfold ltc2422_EOC_timeout_run
    rw [if_pos ht, if_neg Nat.one_ne_zero]
    exact ih _ _ (Nat.mod_lt _ (by decide))

/-- C23. For every sequence `miso` of values read from the ready line and every
`MISO_TIMEOUT ≤ 65535`, the poll of `ltc2422_EOC_timeout` ends: `MISO_TIMEOUT + 1` tests of
its loop condition (or more) give its return value, after at most `MISO_TIMEOUT` samples of
the line. -/
theorem ltc2422_EOC_timeout_bounded (T : Nat) (hT : T ≤ 65535) (miso : Nat → Nat) :
    ∃ (r : Int) (n : Nat),
      (∀ fuel : Nat, T + 1 ≤ fuel → ltc2422_EOC_timeout_run T miso fuel 0 0 = some (r, n)) ∧
      n ≤ T ∧
      r = ltc2422_EOC_timeout ⟨T, by omega⟩ miso := by
  obtain ⟨n, hle, hrun⟩ := ltc2422_EOC_timeout_run_eq T hT miso T 0 (by omega)
  exact ⟨ltc2422_EOC_timeout_loop miso T 0, n, hrun, hle, rfl⟩

/-- Witness of C23: `MISO_TIMEOUT = 1000` and a ready line that is low from the third sample
on. -/
theorem ltc2422_EOC_timeout_bounded_witness :
    ∃ (r : Int) (n : Nat),
      (∀ fuel : Nat, 1000 + 1 ≤ fuel →
        ltc2422_EOC_timeout_run 1000 (fun i => if i < 2 then 1 else 0) fuel 0 0
          = some (r, n)) ∧
      n ≤ 1000 ∧
      r = ltc2422_EOC_timeout ⟨1000, by omega⟩ (fun i => if i < 2 then 1 else 0) :=
  ltc2422_EOC_timeout_bounded 1000 (by decide) (fun i => if i < 2 then 1 else 0)

/-- C24. After `ltc2668_init`, from any prior state: all 16 recorded spans are
`LTC2668_SPAN_0_TO_5V`, `all_same_span` is true, `mux_selected_dac`, `select_bits` and
`global_toggle` are `0`, and `ltc2668_code_to_volts` with `LTC2668_ALL_DACS` returns `0` for
every code `c` and writes `5*c/65535` volts (`0` at code `0`, `5` at code `65535`). -/
theorem ltc2668_init_defaults (st0 : Ltc2668State) :
    ∃ st : Ltc2668State,
      ltc2668_init st0 = some st ∧
      (∀ i : Fin 16, st.soft_spans i = LTC2668_SPAN_0_TO_5V) ∧
      st.all_same_span = 1 ∧ st.all_same_span ≠ 0 ∧
      st.mux_selected_dac = 0 ∧ st.select_bits = 0 ∧ st.global_toggle = 0 ∧
      (∀ (c : Nat) (volts : ℚ),
        ltc2668_code_to_volts st LTC2668_ALL_DACS c volts = some (0, 5 * (c : ℚ) / 65535)) ∧
      (∀ volts : ℚ, ltc2668_code_to_volts st LTC2668_ALL_DACS 0 volts = some (0, 0)) ∧
      (∀ volts : ℚ, ltc2668_code_to_volts st LTC2668_ALL_DACS 65535 volts = some (0, 5)) := by
  have hrange : ltc2668_span_to_min_max
      { soft_spans := fun _ => LTC2668_SPAN_0_TO_5V, mux_selected_dac := 0,
        select_bits := 0, all_same_span := 1, global_toggle := 0,
        previous_data := st0.previous_data } LTC2668_ALL_DACS
      = some (LTC2668_ERR_OK, some (0, 5)) := by
    rw [ltc2668_span_to_min_max_all _ Nat.one_ne_zero]
    rfl
  refine ⟨_, ltc2668_init_eval st0, fun _ => rfl, rfl, Nat.one_ne_zero, rfl, rfl, rfl,
    ?_, ?_, ?_⟩
  · intro c volts
    rw [ltc2668_code_to_volts_eval _ _ _ _ c volts hrange]
    congr 2
    ring
  · intro volts
    rw [ltc2668_code_to_volts_eval _ _ _ _ 0 volts hrange]
    norm_num
  · intro volts
    rw [ltc2668_code_to_volts_eval _ _ _ _ 65535 volts hrange]
    norm_num

/-- C28, counterexample. With the reference `1`, the code `INT32_MIN = -2^31`: the 32-bit
difference `adc_code - 0x00200000` wraps to `2145386496`, and `ltc2422_code_to_volts` returns
`2145386496 / 1048575`, not `(-2^31 - 0x00200000) * 1 / 1048575 = -2149580800 / 1048575`. -/
theorem ltc2422_code_to_volts_wraps :
    ltc2422_code_to_volts (ltc2422_set_reference ⟨0⟩ 1) (-2147483648)
      = 2145386496 / 1048575 ∧
    (((-2147483648 : Int) : ℚ) - 0x00200000) * 1 / 1048575 = -2149580800 / 1048575 ∧
    ltc2422_code_to_volts (ltc2422_set_reference ⟨0⟩ 1) (-2147483648)
      ≠ (((-2147483648 : Int) : ℚ) - 0x00200000) * 1 / 1048575 := by
  have h : to_int32 (-2147483648 - 0x00200000) = 2145386496 := by decide
  have hv : ltc2422_code_to_volts (ltc2422_set_reference ⟨0⟩ 1) (-2147483648)
      = 2145386496 / 1048575 := by
    unfold ltc2422_code_to_volts ltc2422_set_reference
    rw [h]
    norm_num
  refine ⟨hv, by norm_num, ?_⟩
  rw [hv]
  norm_num

/-- C28, amended. After `ltc2422_set_reference(state, vref)`, `ltc2422_code_to_volts(state, c)`
is `(c - 0x00200000) * vref / 1048575` for every `int32_t` code `c` from
`INT32_MIN + 0x00200000` on, where the 32-bit difference does not wrap; code `0x00200000`
gives `0` and code `0x00200000 + 1048575` gives `vref`. -/
theorem ltc2422_code_to_volts_of_reference (state : Ltc2422State) (vref : ℚ) (c : Int)
    (hlo : -2147483648 + 0x00200000 ≤ c) (hhi : c ≤ 2147483647) :
    ltc2422_code_to_volts (ltc2422_set_reference state vref) c
      = ((c : ℚ) - 0x00200000) * vref / 1048575 ∧
    ltc2422_code_to_volts (ltc2422_set_reference state vref) 0x00200000 = 0 ∧
    ltc2422_code_to_volts (ltc2422_set_reference state vref) (0x00200000 + 1048575) = vref := by
  have hc : to_int32 (c - 0x00200000) = c - 0x00200000 :=
    to_int32_of_range _ (by omega) (by omega)
  have h0 : to_int32 (0x00200000 - 0x00200000) = 0 := by decide
  have h1 : to_int32 (0x00200000 + 1048575 - 0x00200000) = 1048575 := by decide
  unfold ltc2422_code_to_volts ltc2422_set_reference
  rw [hc, h0, h1]
  refine ⟨?_, ?_, ?_⟩
  · push_cast
    ring
  · norm_num
  · norm_num
    field_simp

/-- Witness of C28: the reference `5` and the code `0x200001`. -/
theorem ltc2422_code_to_volts_of_reference_witness :
    ltc2422_code_to_volts (ltc2422_set_reference ⟨0⟩ 5) 0x200001
      = (((0x200001 : Int) : ℚ) - 0x00200000) * 5 / 1048575 :=
  (ltc2422_code_to_volts_of_reference ⟨0⟩ 5 0x200001 (by decide) (by decide)).1

/-- For a single channel `n` in `0..15` and a command code whose low nibble is zero, byte 2 of
the command word has the high nibble of the command and the low nibble `n`. -/
theorem ltc2668_command_word_channel (cmd : Fin 16) (n : Fin 16) (code : Nat) :
    ltc2668_command_word (16 * (cmd : Nat)) (n : Nat) code 2 / 16 = (cmd : Nat) ∧
    ltc2668_command_word (16 * (cmd : Nat)) (n : Nat) code 2 % 16 = (n : Nat) := by
  have h : ∀ (c m : Fin 16), ((16 * (c : Nat)) ||| (m : Nat)) % 256 / 16 = (c : Nat) ∧
      ((16 * (c : Nat)) ||| (m : Nat)) % 256 % 16 = (m : Nat) := by decide
  exact h cmd n

/-- The five operations that take `selected_dac`, on a single channel `n` in `0..15`: byte 2
of the command word has the high nibble of the per-channel command and the low nibble `n`. -/
theorem ltc2668_command_byte_channel (n : Fin 16) (code s : Nat) :
    (ltc2668_write_dac_input_register_data ((n : Nat) : Int) code 2 / 16
        = LTC2668_CMD_WRITE_N / 16 ∧
      ltc2668_write_dac_input_register_data ((n : Nat) : Int) code 2 % 16 = (n : Nat)) ∧
    (ltc2668_write_and_update_dac_data ((n : Nat) : Int) code 2 / 16
        = LTC2668_CMD_WRITE_N_UPDATE_N / 16 ∧
      ltc2668_write_and_update_dac_data ((n : Nat) : Int) code 2 % 16 = (n : Nat)) ∧
    (ltc2668_update_power_up_dac_data ((n : Nat) : Int) 2 / 16 = LTC2668_CMD_UPDATE_N / 16 ∧
      ltc2668_update_power_up_dac_data ((n : Nat) : Int) 2 % 16 = (n : Nat)) ∧
    (ltc2668_power_down_dac_data ((n : Nat) : Int) 2 / 16 = LTC2668_CMD_POWER_DOWN_N / 16 ∧
      ltc2668_power_down_dac_data ((n : Nat) : Int) 2 % 16 = (n : Nat)) ∧
    (ltc2668_set_softspan_data ((n : Nat) : Int) s 2 / 16 = LTC2668_CMD_SPAN / 16 ∧
      ltc2668_set_softspan_data ((n : Nat) : Int) s 2 % 16 = (n : Nat)) := by
  have hne : ((n : Nat) : Int) ≠ LTC2668_ALL_DACS := by
    unfold LTC2668_ALL_DACS; omega
  have haddr : (((n : Nat) : Int) % 256).toNat = (n : Nat) := by omega
  unfold ltc2668_write_dac_input_register_data ltc2668_write_and_update_dac_data
    ltc2668_update_power_up_dac_data ltc2668_power_down_dac_data ltc2668_set_softspan_data
  rw [if_neg hne, if_neg hne, if_neg hne, if_neg hne, if_neg hne, haddr]
  exact ⟨ltc2668_command_word_channel 0 n code, ltc2668_command_word_channel 3 n code,
    ltc2668_command_word_channel 1 n 0, ltc2668_command_word_channel 4 n 0,
    ltc2668_command_word_channel 6 n 0⟩

/-- C29. With `selected_dac = LTC2668_ALL_DACS` the address handed to `ltc2668_write` is
`0xFF`, and byte 2 of the command word is `0xFF` for each of the five operations that take
`selected_dac`: its high nibble is `0xF` (the one of `LTC2668_CMD_NO_OPERATION`), not `0xE`
for `ltc2668_set_softspan`, `0xA` for `ltc2668_write_and_update_dac`, `0x8`, `0x9`, `0x5` for
the other three. -/
theorem ltc2668_command_byte_all_dacs :
    ((LTC2668_ALL_DACS % 256).toNat = 0xFF) ∧
    ltc2668_set_softspan_data LTC2668_ALL_DACS 1 2 = 0xFF ∧
    ltc2668_set_softspan_data LTC2668_ALL_DACS 1 2 / 16 ≠ LTC2668_CMD_SPAN_ALL / 16 ∧
    ltc2668_write_and_update_dac_data LTC2668_ALL_DACS 0 2 = 0xFF ∧
    ltc2668_write_and_update_dac_data LTC2668_ALL_DACS 0 2 / 16
      ≠ LTC2668_CMD_WRITE_ALL_UPDATE_ALL / 16 ∧
    ltc2668_write_dac_input_register_data LTC2668_ALL_DACS 0 2 = 0xFF ∧
    ltc2668_update_power_up_dac_data LTC2668_ALL_DACS 2 = 0xFF ∧
    ltc2668_power_down_dac_data LTC2668_ALL_DACS 2 = 0xFF ∧
    (0xFF : Nat) / 16 = LTC2668_CMD_NO_OPERATION / 16 := by
  decide

/-- C30. The command word of `ltc2668_set_softspan(state, 3, LTC2668_SPAN_0_TO_10V)`: its
data field is `data[0] = 0`, `data[1] = 0`, not the low and high byte of the span `1`, while
the span recorded in `soft_spans[3]` is `1`. -/
theorem ltc2668_set_softspan_sends_zero :
    ltc2668_set_softspan_data 3 LTC2668_SPAN_0_TO_10V 0 = 0 ∧
    ltc2668_set_softspan_data 3 LTC2668_SPAN_0_TO_10V 1 = 0 ∧
    LTC2668_SPAN_0_TO_10V &&& 0xFF = 1 ∧
    ltc2668_set_softspan_data 3 LTC2668_SPAN_0_TO_10V 0 ≠ LTC2668_SPAN_0_TO_10V &&& 0xFF ∧
    (∃ st : Ltc2668State,
      ltc2668_set_softspan (ltc2668_uniform_state 0 1) 3 LTC2668_SPAN_0_TO_10V
        = some (LTC2668_ERR_OK, st) ∧
      st.soft_spans 3 = LTC2668_SPAN_0_TO_10V) :=
  ⟨by decide, by decide, by decide, by decide,
    _, ltc2668_set_softspan_channel_eval _ 3 _, by decide⟩

/-! ## SortedDictionary -/

/-- A read within the bounds of an array has a value. -/
theorem array_read_of_bounds {α : Type} {n : Nat} (a : Fin n → α) (i : Int)
    (h0 : 0 ≤ i) (h1 : i < n) : ∃ x, array_read a i = some x := by
  unfold array_read
  rw [dif_pos ⟨h0, h1⟩]
  exact ⟨_, rfl⟩

/-- A read at the index `-1` has no value. -/
theorem array_read_neg_one {α : Type} {n : Nat} (a : Fin n → α) :
    array_read a (-1) = none := by
  unfold array_read
  rw [dif_neg (by omega)]

/-- The middle `(lo + hi) / 2` of a non-empty interval of indices lies within it. -/
theorem tdiv_mid_bounds (lo hi : Int) (h0 : 0 ≤ lo) (h : lo ≤ hi) :
    lo ≤ Int.tdiv (lo + hi) 2 ∧ Int.tdiv (lo + hi) 2 ≤ hi := by
  rw [Int.tdiv_eq_ediv (by omega) (by decide)]
  omega

/-- The loop of `search` ends: on indices within the array, more tests of `lo <= hi` than the
interval `lo..hi` has members give a result. -/
theorem SortedDictionary.search_loop_fuel {K V : Type} {Capacity : Nat}
    (compare : K → K → Int) (d : SortedDictionary K V Capacity) (key : K) (exact : Bool)
    (fuel : Nat) :
    ∀ lo hi : Int, 0 ≤ lo → hi < Capacity → (hi - lo + 1).toNat < fuel →
      ∃ r : Int, SortedDictionary.search_loop compare d key exact fuel lo hi = some r := by
  induction fuel with
  | zero =>
    intro lo hi _ _ hf
    omega
  | succ f ih =>
    intro lo hi h0 hcap hf
    unfold SortedDictionary.search_loop
    by_cases hle : lo ≤ hi
    · rw [if_pos hle]
      obtain ⟨hm1, hm2⟩ := tdiv_mid_bounds lo hi h0 hle
      obtain ⟨k, hk⟩ := array_read_of_bounds d.keys (Int.tdiv (lo + hi) 2) (by omega) (by omega)
      simp only [hk]
      by_cases hc1 : compare k key < 0
      · rw [if_pos hc1]
        exact ih _ _ (by omega) hcap (by omega)
      · rw [if_neg hc1]
        by_cases hc2 : compare k key > 0
        · rw [if_pos hc2]
          exact ih _ _ h0 (by omega) (by omega)
        · rw [if_neg hc2]
          cases exact
          · exact ⟨_, rfl⟩
          · exact ⟨_, rfl⟩
    · rw [if_neg hle]
      cases exact
      · exact ⟨_, rfl⟩
      · exact ⟨_, rfl⟩

/-- `search` returns a result on every dictionary with `0 ≤ num_entries ≤ Capacity`: the
tests of `lo <= hi` that its loop is given are enough. -/
theorem SortedDictionary.search_defined {K V : Type} {Capacity : Nat}
    (compare : K → K → Int) (d : SortedDictionary K V Capacity) (key : K) (exact : Bool)
    (h0 : 0 ≤ d.num_entries) (h1 : d.num_entries ≤ Capacity) :
    ∃ r : Int, SortedDictionary.search compare d key exact = some r := by
  unfold SortedDictionary.search
  by_cases hz : d.num_entries = 0
  · rw [if_pos hz]
    exact ⟨_, rfl⟩
  · rw [if_neg hz]
    exact SortedDictionary.search_loop_fuel compare d key exact _ 0 _ (le_refl 0)
      (by omega) (by omega)

/-- C25. From the empty dictionary `dict_zeroed`, `insert(5, 50)` returns `true` and
`get_value(5, out)` then returns `true` with `out = 50`.  A second `insert(5, 51)` has no
defined result: `search(5, false)` returns `-1` for the key that is present and
`array_insert` reads `keys[-1]`; so has the `get_value(5, out)` that follows it. -/
theorem sorted_dictionary_lookup_after_duplicate :
    ∃ d1 : SortedDictionary Int Int 4,
      SortedDictionary.insert int_compare dict_zeroed 5 50 = some (true, d1) ∧
      SortedDictionary.get_value int_compare d1 5 7 = some (true, 50) ∧
      SortedDictionary.search int_compare d1 5 false = some (-1) ∧
      array_read d1.keys (-1) = none ∧
      SortedDictionary.insert int_compare d1 5 51 = none ∧
      (SortedDictionary.insert int_compare d1 5 51).bind
        (fun r => SortedDictionary.get_value int_compare r.2 5 7) = none :=
  ⟨_, rfl, by decide, by decide, array_read_neg_one _, rfl, rfl⟩

/-- C26. Two runs of `insert`.  On the empty dictionary `dict_zeroed` (capacity 4, storage
zeroed), `insert(0, 50)` returns `false` although the dictionary is not full and does not
contain the key `0` (`get_value(0, out)` returns `false`): `array_insert` compares the key
with the unused cell `keys[0]`.  After `insert(5, 50)`, the call `insert(5, 51)` of the key
that is present does not return `false`: it reads `keys[-1]`. -/
theorem sorted_dictionary_insert_result :
    dict_zeroed.num_entries = 0 ∧
    SortedDictionary.get_value int_compare dict_zeroed 0 7 = some (false, 7) ∧
    SortedDictionary.insert int_compare dict_zeroed 0 50 = some (false, dict_zeroed) ∧
    ∃ d1 : SortedDictionary Int Int 4,
      SortedDictionary.insert int_compare dict_zeroed 5 50 = some (true, d1) ∧
      d1.num_entries = 1 ∧
      SortedDictionary.array_insert d1 (-1) 5 51 = none ∧
      SortedDictionary.insert int_compare d1 5 51 = none ∧
      SortedDictionary.insert int_compare d1 5 51 ≠ some (false, d1) :=
  ⟨rfl, by decide, rfl, _, rfl, by decide, rfl, rfl,
    fun h => Option.noConfusion h⟩

/-- C27. From the empty dictionary `dict_zeroed`, `insert(3, 30)` and `insert(5, 50)` leave
`num_entries = 2` and the keys `3 < 5` with their values.  The call `insert(3, 31)` that
follows has no defined result (`array_insert` reads `keys[-1]`), and no dictionary state. -/
theorem sorted_dictionary_order_after_duplicate :
    ∃ d1 d2 : SortedDictionary Int Int 4,
      SortedDictionary.insert int_compare dict_zeroed 3 30 = some (true, d1) ∧
      SortedDictionary.insert int_compare d1 5 50 = some (true, d2) ∧
      d2.num_entries = 2 ∧ d2.keys 0 = 3 ∧ d2.keys 1 = 5 ∧
      d2.values 0 = 30 ∧ d2.values 1 = 50 ∧
      SortedDictionary.search int_compare d2 3 false = some (-1) ∧
      SortedDictionary.insert int_compare d2 3 31 = none :=
  ⟨_, _, rfl, rfl, by decide, by decide, by decide, by decide, by decide, by decide,
    rfl⟩

/-! ## ParseNum: theorems -/

/-- C31. `parse_i16` does not store the parsed number: whatever the string, the value it
leaves in `*value` is the 16-bit pattern of the address that the pointer `value` holds (the
statement is `*value = int16_t(value)`).  For the string `"5"` (one character, consumed
completely, value `5`) and a pointer holding the address `0x08F0` it returns `true` and stores
`2288`, where `parse_i8`, whose statement is `*value = int8_t(long_value)`, stores `5`. -/
theorem parse_i16_stores_address :
    (∀ (str : StrtolResult) (value_address : Nat) (long_value : Int),
      (parse_i16 str value_address long_value).2 = to_int16 (value_address : Int)) ∧
    parse_i16 ⟨1, 5, 1⟩ 0x08F0 0 = (true, 2288) ∧
    parse_i8 ⟨1, 5, 1⟩ 0 = (true, 5) := by
  refine ⟨?_, ?_, ?_⟩
  · intro str value_address long_value
    simp only [parse_i16]
  · norm_num [parse_i16, parse_long, to_int16, INT_MIN, INT_MAX]
  · norm_num [parse_i8, parse_long, to_int8, SCHAR_MIN, SCHAR_MAX]

/-! ## LTC2422: the channel bit in the code -/

/-- C34. Two reads whose first words carry the same conversion data and differ only in the
bit `0x40` of byte 2: the bytes `01 00 20` give channel A the code `0x200001`, the bytes
`01 00 60` give channel B the code `0x600001`; `ltc2422_adc_read` leaves the bit in the code,
and `ltc2422_code_to_volts`, which subtracts `0x00200000` from whatever code it is given,
turns it into `4194304` more steps of `lsb`: with `lsb = 1/10` the voltages are `0.1` and
`419430.5`, and so it is for every word `n` below `0x400000`. -/
theorem ltc2422_adc_read_keeps_channel_bit :
    ltc2422_adc_read ⟨1/10⟩ 2 (dc934a_bus_never_low 0x01 0 0x20)
      = (0, some (0x200001, 0x600000)) ∧
    ltc2422_adc_read ⟨1/10⟩ 2 (dc934a_bus_never_low 0x01 0 0x60)
      = (0, some (0x600000, 0x600001)) ∧
    ltc2422_code_to_volts ⟨1/10⟩ 0x200001 = 1/10 ∧
    ltc2422_code_to_volts ⟨1/10⟩ 0x600001 = 4194305/10 ∧
    (∀ (state : Ltc2422State) (n : Fin 4194304),
      ltc2422_code_to_volts state (((n : Nat) : Int) + 0x400000)
        = ltc2422_code_to_volts state ((n : Nat) : Int) + 4194304 * state.lsb) := by
  have h1 : to_int32 (0x200001 - 0x00200000) = 1 := by decide
  have h2 : to_int32 (0x600001 - 0x00200000) = 4194305 := by decide
  refine ⟨rfl, rfl, ?_, ?_, ?_⟩
  · unfold ltc2422_code_to_volts; rw [h1]; norm_num
  · unfold ltc2422_code_to_volts; rw [h2]; norm_num
  · intro state n
    have hn : (n : Nat) < 4194304 := n.isLt
    unfold ltc2422_code_to_volts
    rw [to_int32_of_range (((n : Nat) : Int) + 0x400000 - 0x00200000) (by omega) (by omega),
      to_int32_of_range (((n : Nat) : Int) - 0x00200000) (by omega) (by omega)]
    push_cast
    ring

/-! ## Monotonicity and rounding of `volts_to_code` -/

/-- The saturation into `[0, 65535]` is monotone. -/
theorem clamp_mono (a b : Int) (h : a ≤ b) :
    max 0 (min 65535 a) ≤ max 0 (min 65535 b) :=
  max_le_max (le_refl 0) (min_le_min (le_refl 65535) h)

/-- C35. `volts_to_code` is monotone.  On a single LTC2607 channel with `lsb > 0` and on an
LTC2668 channel whose span has `max > min`, both calls return `0` for voltages `v1 ≤ v2`,
and the code written for `v1` is at most the code written for `v2`. -/
theorem volts_to_code_monotone (st7 : Ltc2607State) (sel7 : Int) (lsb offset : ℚ)
    (hsel : (sel7 = LTC2607_DAC_A ∧ lsb = st7.dac_a_lsb ∧ offset = st7.dac_a_offset) ∨
            (sel7 = LTC2607_DAC_B ∧ lsb = st7.dac_b_lsb ∧ offset = st7.dac_b_offset))
    (hlsb : 0 < lsb)
    (st8 : Ltc2668State) (sel8 : Int) (lo hi : ℚ)
    (h8 : ltc2668_span_to_min_max st8 sel8 = some (LTC2668_ERR_OK, some (lo, hi)))
    (hspan : lo < hi)
    (v1 v2 : ℚ) (hv : v1 ≤ v2) (old1 old2 : Nat) :
    (∃ c1 c2 : Nat,
      ltc2607_volts_to_code st7 sel7 v1 old1 = some (LTC2607_ERR_OK, c1) ∧
      ltc2607_volts_to_code st7 sel7 v2 old2 = some (LTC2607_ERR_OK, c2) ∧ c1 ≤ c2) ∧
    (∃ c1 c2 : Nat,
      ltc2668_volts_to_code st8 sel8 v1 old1 = some (LTC2668_ERR_OK, c1) ∧
      ltc2668_volts_to_code st8 sel8 v2 old2 = some (LTC2668_ERR_OK, c2) ∧ c1 ≤ c2) := by
  constructor
  · obtain ⟨c1, h1, e1⟩ := ltc2607_volts_to_code_eval st7 sel7 lsb offset v1 old1 hsel
      (ne_of_gt hlsb)
    obtain ⟨c2, h2, e2⟩ := ltc2607_volts_to_code_eval st7 sel7 lsb offset v2 old2 hsel
      (ne_of_gt hlsb)
    refine ⟨c1, c2, h1, h2, ?_⟩
    have hq : (v1 - offset) / lsb ≤ (v2 - offset) / lsb :=
      div_le_div_of_nonneg_right (by linarith) (le_of_lt hlsb)
    have hf : ⌊(v1 - offset) / lsb⌋ ≤ ⌊(v2 - offset) / lsb⌋ := Int.floor_le_floor hq
    have := clamp_mono _ _ hf
    omega
  · have hpos : 0 < hi - lo := by linarith
    obtain ⟨c1, h1, e1⟩ := ltc2668_volts_to_code_eval st8 sel8 lo hi v1 old1 h8
      (ne_of_gt hpos)
    obtain ⟨c2, h2, e2⟩ := ltc2668_volts_to_code_eval st8 sel8 lo hi v2 old2 h8
      (ne_of_gt hpos)
    refine ⟨c1, c2, h1, h2, ?_⟩
    have hq : 65535 * (v1 - lo) / (hi - lo) ≤ 65535 * (v2 - lo) / (hi - lo) :=
      div_le_div_of_nonneg_right (by linarith) (le_of_lt hpos)
    have hf : ⌊65535 * (v1 - lo) / (hi - lo)⌋ ≤ ⌊65535 * (v2 - lo) / (hi - lo)⌋ :=
      Int.floor_le_floor hq
    have := clamp_mono _ _ hf
    omega

/-- C35 at channel A of the state of `ltc2607_clear_calibration` and at channel 3 of an LTC2668
with the span 0 to 10 V on every channel, for the voltages `1` and `2`. -/
theorem volts_to_code_monotone_witness :
    (∃ c1 c2 : Nat,
      ltc2607_volts_to_code ltc2607_initial_state LTC2607_DAC_A 1 0
        = some (LTC2607_ERR_OK, c1) ∧
      ltc2607_volts_to_code ltc2607_initial_state LTC2607_DAC_A 2 0
        = some (LTC2607_ERR_OK, c2) ∧ c1 ≤ c2) ∧
    (∃ c1 c2 : Nat,
      ltc2668_volts_to_code (ltc2668_uniform_state 1 1) 3 1 0 = some (LTC2668_ERR_OK, c1) ∧
      ltc2668_volts_to_code (ltc2668_uniform_state 1 1) 3 2 0 = some (LTC2668_ERR_OK, c2) ∧
      c1 ≤ c2) :=
  volts_to_code_monotone ltc2607_initial_state LTC2607_DAC_A
    LTC2607_TYPICAL_lsb LTC2607_TYPICAL_OFFSET (Or.inl ⟨rfl, rfl, rfl⟩)
    (by unfold LTC2607_TYPICAL_lsb; norm_num)
    (ltc2668_uniform_state 1 1) 3 0 10
    rfl
    (by norm_num) 1 2 (by norm_num) 0 0

/-- C36. On a single LTC2607 channel with `lsb > 0`, for a voltage `v` with
`offset ≤ v ≤ offset + 65535*lsb`, `ltc2607_volts_to_code` returns `LTC2607_ERR_OK` with a code
`c` for which `ltc2607_code_to_volts` returns `LTC2607_ERR_OK` with a voltage `u` such that
`u ≤ v < u + lsb`. -/
theorem ltc2607_code_within_one_lsb (st : Ltc2607State) (sel : Int) (lsb offset : ℚ)
    (hsel : (sel = LTC2607_DAC_A ∧ lsb = st.dac_a_lsb ∧ offset = st.dac_a_offset) ∨
            (sel = LTC2607_DAC_B ∧ lsb = st.dac_b_lsb ∧ offset = st.dac_b_offset))
    (hlsb : 0 < lsb) (v : ℚ) (hlo : offset ≤ v) (hhi : v ≤ offset + 65535 * lsb)
    (old : Nat) (volts : ℚ) :
    ∃ (c : Nat) (u : ℚ),
      ltc2607_volts_to_code st sel v old = some (LTC2607_ERR_OK, c) ∧
      ltc2607_code_to_volts st sel c volts = (LTC2607_ERR_OK, u) ∧
      u ≤ v ∧ v < u + lsb := by
  obtain ⟨c, hc, ec⟩ := ltc2607_volts_to_code_eval st sel lsb offset v old hsel (ne_of_gt hlsb)
  have hq0 : 0 ≤ (v - offset) / lsb := div_nonneg (by linarith) (le_of_lt hlsb)
  have hq1 : (v - offset) / lsb ≤ 65535 := by
    rw [div_le_iff₀ hlsb]; linarith
  have hf0 : 0 ≤ ⌊(v - offset) / lsb⌋ := Int.floor_nonneg.mpr hq0
  have hf1 : ⌊(v - offset) / lsb⌋ ≤ 65535 := by
    have : ⌊(v - offset) / lsb⌋ ≤ ⌊(65535 : ℚ)⌋ := Int.floor_le_floor hq1
    simpa using this
  have hcf : (c : Int) = ⌊(v - offset) / lsb⌋ := by
    rw [ec, min_eq_right hf1, max_eq_right hf0]
  have hcq : (c : ℚ) = ((⌊(v - offset) / lsb⌋ : Int) : ℚ) := by
    have := congrArg (fun z : Int => (z : ℚ)) hcf
    simpa using this
  have hle : (c : ℚ) ≤ (v - offset) / lsb := by rw [hcq]; exact Int.floor_le _
  have hlt : (v - offset) / lsb < (c : ℚ) + 1 := by rw [hcq]; exact Int.lt_floor_add_one _
  rw [le_div_iff₀ hlsb] at hle
  rw [div_lt_iff₀ hlsb] at hlt
  refine ⟨c, lsb * (c : ℚ) + offset, hc, ?_, by linarith, by linarith⟩
  rcases hsel with ⟨h1, h2, h3⟩ | ⟨h1, h2, h3⟩
  · subst h1 h2 h3
    simp [ltc2607_code_to_volts, LTC2607_DAC_A, LTC2607_BOTH]
  · subst h1 h2 h3
    simp [ltc2607_code_to_volts, LTC2607_DAC_A, LTC2607_DAC_B, LTC2607_BOTH]

/-- C36 at channel A of the state of `ltc2607_clear_calibration`, for the voltage `1`. -/
theorem ltc2607_code_within_one_lsb_witness :
    ∃ (c : Nat) (u : ℚ),
      ltc2607_volts_to_code ltc2607_initial_state LTC2607_DAC_A 1 0
        = some (LTC2607_ERR_OK, c) ∧
      ltc2607_code_to_volts ltc2607_initial_state LTC2607_DAC_A c 0 = (LTC2607_ERR_OK, u) ∧
      u ≤ 1 ∧ 1 < u + LTC2607_TYPICAL_lsb :=
  ltc2607_code_within_one_lsb ltc2607_initial_state LTC2607_DAC_A
    LTC2607_TYPICAL_lsb LTC2607_TYPICAL_OFFSET (Or.inl ⟨rfl, rfl, rfl⟩)
    (by unfold LTC2607_TYPICAL_lsb; norm_num) 1
    (by unfold LTC2607_TYPICAL_OFFSET; norm_num)
    (by unfold LTC2607_TYPICAL_OFFSET LTC2607_TYPICAL_lsb; norm_num) 0 0

/-! ## LTC2668: soundness of the uniformity flag -/

/-- A channel index found by `ltc2668_channel_index` is the value of `selected_dac`. -/
theorem ltc2668_channel_index_some (selected_dac : Int) (k : Fin 16)
    (h : ltc2668_channel_index selected_dac = some k) : selected_dac = ((k : Nat) : Int) := by
  unfold ltc2668_channel_index at h
  split at h
  · rename_i hr
    simp only [Option.some.injEq] at h
    subst h
    simp only
    omega
  · exact absurd h (by simp)

/-- One public operation keeps the flag sound: if `all_same_span` is set after it, the 16
recorded spans are equal after it. -/
theorem ltc2668_apply_uniform (st st2 : Ltc2668State) (op : Ltc2668Op)
    (h : op.apply st = some st2)
    (hinv : st.all_same_span ≠ 0 → ∀ i j : Fin 16, st.soft_spans i = st.soft_spans j) :
    st2.all_same_span ≠ 0 → ∀ i j : Fin 16, st2.soft_spans i = st2.soft_spans j := by
  cases op with
  | set_softspan selected_dac soft_span =>
    simp only [Ltc2668Op.apply] at h
    by_cases hall : selected_dac = LTC2668_ALL_DACS
    · subst hall
      rw [ltc2668_set_softspan_all_eval] at h
      simp only [Option.map_some', Option.some.injEq] at h
      subst h
      intro _ i j
      rfl
    · cases hk : ltc2668_channel_index selected_dac with
      | none =>
        simp [ltc2668_set_softspan, hall, hk] at h
      | some k =>
        have hsel := ltc2668_channel_index_some selected_dac k hk
        subst hsel
        rw [ltc2668_set_softspan_channel_eval] at h
        simp only [Option.map_some', Option.some.injEq] at h
        subst h
        intro hflag i j
        by_cases hu : ∀ j, Function.update st.soft_spans k soft_span j = soft_span
        · simp only
          rw [hu i, hu j]
        · simp only [hu, if_false, ne_eq, not_true_eq_false] at hflag
  | write_dac_input_register selected_dac code =>
    simp only [Ltc2668Op.apply, ltc2668_write_dac_input_register, ltc2668_write_fake,
      Option.some.injEq] at h
    subst h; exact hinv
  | write_and_update_dac selected_dac code =>
    simp only [Ltc2668Op.apply, ltc2668_write_and_update_dac, ltc2668_write_fake,
      Option.some.injEq] at h
    subst h; exact hinv
  | update_power_up_dac selected_dac =>
    simp only [Ltc2668Op.apply, ltc2668_update_power_up_dac, ltc2668_write_fake,
      Option.some.injEq] at h
    subst h; exact hinv
  | power_down_dac selected_dac =>
    simp only [Ltc2668Op.apply, ltc2668_power_down_dac, ltc2668_write_fake,
      Option.some.injEq] at h
    subst h; exact hinv
  | set_reference_mode is_internal =>
    simp only [Ltc2668Op.apply, ltc2668_set_reference_mode, ltc2668_write_fake,
      Option.some.injEq] at h
    subst h; exact hinv
  | toggle_select select_bits =>
    simp only [Ltc2668Op.apply, ltc2668_toggle_select, ltc2668_write_fake,
      Option.some.injEq] at h
    subst h; exact hinv
  | set_mux is_enabled selected_dac =>
    simp only [Ltc2668Op.apply, ltc2668_set_mux, ltc2668_write_fake,
      Option.some.injEq] at h
    subst h; exact hinv
  | set_global_toggle is_high =>
    simp only [Ltc2668Op.apply, ltc2668_set_global_toggle, ltc2668_write_fake,
      Option.some.injEq] at h
    subst h; exact hinv

/-- A sequence of public operations keeps the flag sound. -/
theorem ltc2668_run_uniform (ops : List Ltc2668Op) (st st2 : Ltc2668State)
    (h : ltc2668_run st ops = some st2)
    (hinv : st.all_same_span ≠ 0 → ∀ i j : Fin 16, st.soft_spans i = st.soft_spans j) :
    st2.all_same_span ≠ 0 → ∀ i j : Fin 16, st2.soft_spans i = st2.soft_spans j := by
  induction ops generalizing st with
  | nil =>
    simp only [ltc2668_run, Option.some.injEq] at h
    subst h; exact hinv
  | cons op ops ih =>
    simp only [ltc2668_run] at h
    cases hop : op.apply st with
    | none => simp [hop] at h
    | some st1 =>
      simp only [hop] at h
      exact ih st1 h (ltc2668_apply_uniform st st1 op hop hinv)

/-- In every state reached from `ltc2668_init`, a set flag means 16 equal recorded spans. -/
theorem ltc2668_reachable_uniform (st : Ltc2668State) (h : Ltc2668Reachable st) :
    st.all_same_span ≠ 0 → ∀ i j : Fin 16, st.soft_spans i = st.soft_spans j := by
  obtain ⟨st0, st1, ops, hinit, hrun⟩ := h
  refine ltc2668_run_uniform ops st1 st hrun ?_
  rw [ltc2668_init_eval] at hinit
  simp only [Option.some.injEq] at hinit
  subst hinit
  intro _ i j
  rfl

/-- C32. In every state reached from `ltc2668_init` by a sequence of the public operations,
if `all_same_span` is true then the 16 recorded spans are equal, and
`ltc2668_code_to_volts` and `ltc2668_volts_to_code` with `LTC2668_ALL_DACS` give the result
of the same call on each single channel `0..15`. -/
theorem ltc2668_all_same_span_sound (st : Ltc2668State) (h : Ltc2668Reachable st)
    (hflag : st.all_same_span ≠ 0) :
    (∀ i j : Fin 16, st.soft_spans i = st.soft_spans j) ∧
    ∀ (k : Fin 16) (c : Nat) (v volts : ℚ) (old : Nat),
      ltc2668_code_to_volts st LTC2668_ALL_DACS c volts
        = ltc2668_code_to_volts st ((k : Nat) : Int) c volts ∧
      ltc2668_volts_to_code st LTC2668_ALL_DACS v old
        = ltc2668_volts_to_code st ((k : Nat) : Int) v old := by
  have hu := ltc2668_reachable_uniform st h hflag
  refine ⟨hu, ?_⟩
  intro k c v volts old
  have hspan : ltc2668_span_to_min_max st LTC2668_ALL_DACS
      = ltc2668_span_to_min_max st ((k : Nat) : Int) := by
    rw [ltc2668_span_to_min_max_all st hflag, ltc2668_span_to_min_max_channel, hu 0 k]
  unfold ltc2668_code_to_volts ltc2668_volts_to_code
  rw [hspan]
  exact ⟨rfl, rfl⟩

/-- C32 at the state reached by `ltc2668_init`, a span change of channel 3, a span change of
all channels to 0 to 10 V and a power-down of channel 2. -/
theorem ltc2668_all_same_span_sound_witness :
    Ltc2668Reachable (ltc2668_uniform_state 1 1) ∧
    (ltc2668_uniform_state 1 1).all_same_span ≠ 0 ∧
    (∀ i j : Fin 16,
      (ltc2668_uniform_state 1 1).soft_spans i = (ltc2668_uniform_state 1 1).soft_spans j) ∧
    ∀ (k : Fin 16) (c : Nat) (v volts : ℚ) (old : Nat),
      ltc2668_code_to_volts (ltc2668_uniform_state 1 1) LTC2668_ALL_DACS c volts
        = ltc2668_code_to_volts (ltc2668_uniform_state 1 1) ((k : Nat) : Int) c volts ∧
      ltc2668_volts_to_code (ltc2668_uniform_state 1 1) LTC2668_ALL_DACS v old
        = ltc2668_volts_to_code (ltc2668_uniform_state 1 1) ((k : Nat) : Int) v old :=
  have hr : Ltc2668Reachable (ltc2668_uniform_state 1 1) :=
    ⟨ltc2668_uniform_state 4 0, _,
      [Ltc2668Op.set_softspan ((3 : Fin 16) : Nat) 2,
       Ltc2668Op.set_softspan LTC2668_ALL_DACS 1, Ltc2668Op.power_down_dac 2],
      ltc2668_init_eval _, by
        simp only [ltc2668_run, Ltc2668Op.apply, ltc2668_set_softspan_channel_eval,
          ltc2668_set_softspan_all_eval, ltc2668_power_down_dac, ltc2668_write_fake,
          Option.map_some']
        rfl⟩
  ⟨hr, by decide, ltc2668_all_same_span_sound (ltc2668_uniform_state 1 1) hr (by decide)⟩

/-! ## LTC2607: the flag `same_cal` after a failed calibration -/

/-- C33. A state reached from `ltc2607_init` by one `dc934a_calibration` that fails at its
second ADC read, after the first read has stored the code `0x600000` through the content
`0x0200` of `low_code_b`, the address of the record: `same_cal` is still true, `dac_a_lsb` is
`3 / 2^128` and `dac_b_lsb` is `LTC2607_TYPICAL_lsb`, and `ltc2607_code_to_volts` with
`LTC2607_BOTH` gives for the code `65535` another voltage than with `LTC2607_DAC_B`. -/
theorem ltc2607_same_cal_unsound :
    ltc2607_run ltc2607_initial_state
        [Ltc2607Op.calibration ⟨1/10⟩ 2 (dc934a_bus_never_low 0x01 0 0x20) dc934a_bus_low
          0x0200 0 (dc934a_store_at 0x0200)]
      = some dc934a_overwritten_state ∧
    Ltc2607Reachable dc934a_overwritten_state ∧
    dc934a_overwritten_state.same_cal = true ∧
    dc934a_overwritten_state.dac_a_lsb = 3 / 2 ^ 128 ∧
    dc934a_overwritten_state.dac_b_lsb = LTC2607_TYPICAL_lsb ∧
    dc934a_overwritten_state.dac_a_lsb ≠ dc934a_overwritten_state.dac_b_lsb ∧
    ltc2607_code_to_volts dc934a_overwritten_state LTC2607_BOTH 65535 0
      = (LTC2607_ERR_OK, 3 / 2 ^ 128 * 65535) ∧
    ltc2607_code_to_volts dc934a_overwritten_state LTC2607_DAC_B 65535 0
      = (LTC2607_ERR_OK, LTC2607_TYPICAL_lsb * 65535) ∧
    ltc2607_code_to_volts dc934a_overwritten_state LTC2607_BOTH 65535 0
      ≠ ltc2607_code_to_volts dc934a_overwritten_state LTC2607_DAC_B 65535 0 := by
  have hcal : dc934a_calibration ltc2607_initial_state ⟨1/10⟩ 2
      (dc934a_bus_never_low 0x01 0 0x20) dc934a_bus_low 0x0200 0 (dc934a_store_at 0x0200)
      = some (DC934A_ERR_ADC_READ, dc934a_overwritten_state) :=
    dc934a_calibration_second_read_error _ _ _ _ _ _ _ _ _ _ _
      (ltc2422_adc_read_never_low_01 _) (dc934a_store_at_dac_a_lsb _ _)
      (by rw [show (ltc2422_adc_read ⟨1/10⟩ 2 dc934a_bus_low).1 = -1 from rfl]; decide)
  have hrun : ltc2607_run ltc2607_initial_state
      [Ltc2607Op.calibration ⟨1/10⟩ 2 (dc934a_bus_never_low 0x01 0 0x20) dc934a_bus_low
        0x0200 0 (dc934a_store_at 0x0200)] = some dc934a_overwritten_state := by
    simp only [ltc2607_run, Ltc2607Op.apply, hcal, Option.map_some']
  have hA : ltc2607_code_to_volts dc934a_overwritten_state LTC2607_BOTH 65535 0
      = (LTC2607_ERR_OK, 3 / 2 ^ 128 * 65535) := by
    simp [ltc2607_code_to_volts, dc934a_overwritten_state, ltc2607_initial_state,
      ltc2607_init, ltc2607_clear_calibration, ltc2607_set_i2c_address, LTC2607_BOTH,
      LTC2607_TYPICAL_OFFSET]
  have hB : ltc2607_code_to_volts dc934a_overwritten_state LTC2607_DAC_B 65535 0
      = (LTC2607_ERR_OK, LTC2607_TYPICAL_lsb * 65535) := by
    simp [ltc2607_code_to_volts, dc934a_overwritten_state, ltc2607_initial_state,
      ltc2607_init, ltc2607_clear_calibration, ltc2607_set_i2c_address, LTC2607_BOTH,
      LTC2607_DAC_A, LTC2607_DAC_B, LTC2607_TYPICAL_OFFSET]
  have hne : (3 / 2 ^ 128 : ℚ) ≠ LTC2607_TYPICAL_lsb := by
    norm_num [LTC2607_TYPICAL_lsb]
  refine ⟨hrun, ⟨_, _, hrun⟩, rfl, rfl, rfl, hne, hA, hB, ?_⟩
  rw [hA, hB]
  intro hcon
  simp only [Prod.mk.injEq, true_and] at hcon
  have h65 : (65535 : ℚ) ≠ 0 := by norm_num
  exact hne (mul_right_cancel₀ h65 hcon)
